import Mathlib

/-!
MockUrlFetcher (net/instaweb/http/mock_url_fetcher.cc)

A shallow embedding of `MockUrlFetcher`: the url-to-response store and
`StreamingFetchUrl`, the conditional-GET decision (If-Modified-Since,
If-None-Match), failure injection and split body delivery.

Conventions of the embedding.

* `GoogleString` texts that are only compared (urls, header names and values,
  etags) are `String`; a response body is a list of fewer than 2^64 bytes, so
  that `size()` is a `size_t` and `substr` counts bytes.
* `int64` values are `Int` (they are only compared).  `int mid` is a 32 bit
  two's complement integer and `size_t` is 64 bit (LP64): the narrowing of
  `body().size() / 2` is written out with explicit moduli.
* `CHECK(c)` aborts the process when `c` is false: a function that can hit a
  failing `CHECK` returns `none` there.  `EXPECT_*` records a test failure and
  goes on: the failures are collected in a list.
* The pointers `response_headers` and `response_writer` are modelled by the
  value before the call (an argument) and the value after it (a field of the
  result).  `message_handler` is only handed on to `Writer::Write` and is left
  out.
-/

namespace net_instaweb

/-! ## Collaborators declared outside the translated sources -/

/-- One byte of a response body. -/
abbrev Byte := Fin 256

/-- The bytes of a `StringPiece`, as handed to a writer. -/
abbrev Bytes := List Byte

/-- A `GoogleString` used as a response body: its bytes; the size fits a 64 bit
`size_t`. -/
abbrev Body := { bytes : List Byte // bytes.length < 18446744073709551616 }

/-- Modelled from the spec: the time conversions of `time_util.h` and the url
parser `GoogleUrl` are not part of the translated sources; they are taken as
parameters.  `ConvertStringToTime s` is `some t` when `s` parses to the time `t`
(the C++ function returns true and stores `t`), `ConvertTimeToString` formats a
time for a header, and `HostAndPort url` is `GoogleUrl(url).HostAndPort()`. -/
structure Collaborators where
  ConvertStringToTime : String → Option Int
  ConvertTimeToString : Int → String
  HostAndPort : String → String

/-- Modelled from the spec: the header name `Host` of `HttpAttributes`. -/
def HttpAttributes.kHost : String := "Host"

/-- Modelled from the spec: the header name `If-Modified-Since`. -/
def HttpAttributes.kIfModifiedSince : String := "If-Modified-Since"

/-- Modelled from the spec: the header name `If-None-Match`. -/
def HttpAttributes.kIfNoneMatch : String := "If-None-Match"

/-- Modelled from the spec: the header name `Date`. -/
def HttpAttributes.kDate : String := "Date"

/-- Modelled from the spec: status code 304, "Not Modified". -/
def HttpStatus.kNotModified : Int := 304

/-- Modelled from the spec: the reason phrase that goes with a status code; the
fetcher only ever sets 304. -/
def HttpStatus.GetReasonPhrase (code : Int) : String :=
  if code = 304 then "Not Modified" else if code = 200 then "OK" else ""

/-- Modelled from the spec: `RequestHeaders` is a read-only header collection,
an ordered list of name/value pairs, with a multi-value and a single-value
lookup by name. -/
structure RequestHeaders where
  headers : List (String × String)
deriving DecidableEq, Repr

/-- The values a request carries for `name`, in order. -/
def RequestHeaders.valuesOf (h : RequestHeaders) (name : String) : List String :=
  (h.headers.filter (fun p => decide (p.1 = name))).map Prod.snd

/-- Modelled from the spec: `Lookup(name, &values)`: when the name is present
the values are stored into `values` and the call returns true; otherwise
`values` is left as it was and the call returns false. -/
def RequestHeaders.Lookup (h : RequestHeaders) (name : String) (values : List String) :
    Bool × List String :=
  match h.valuesOf name with
  | [] => (false, values)
  | v :: vs => (true, v :: vs)

/-- Modelled from the spec: `Lookup1(name)`: the single value of the header, or
NULL (`none`) when the header is absent or has several values. -/
def RequestHeaders.Lookup1 (h : RequestHeaders) (name : String) : Option String :=
  match h.valuesOf name with
  | [v] => some v
  | _ => none

/-- Modelled from the spec: `ResponseHeaders` is a status line, an ordered list
of name/value pairs, and caching metadata derived from them.  The derived
metadata is represented by the status code and the pairs it was last computed
from (`none`: never computed): whatever the derivation is, it is a function of
these. -/
structure ResponseHeaders where
  status_code : Int
  reason_phrase : String
  headers : List (String × String)
  caching : Option (Int × List (String × String))
deriving DecidableEq, Repr

/-- Modelled from the spec: set status code and reason; nothing else changes. -/
def ResponseHeaders.SetStatusAndReason (h : ResponseHeaders) (code : Int) : ResponseHeaders :=
  { h with status_code := code, reason_phrase := HttpStatus.GetReasonPhrase code }

/-- Modelled from the spec: copy all fields from another instance. -/
def ResponseHeaders.CopyFrom (_h : ResponseHeaders) (other : ResponseHeaders) : ResponseHeaders :=
  other

/-- Modelled from the spec: the "add" mutation appends a name/value pair. -/
def ResponseHeaders.Add (h : ResponseHeaders) (name value : String) : ResponseHeaders :=
  { h with headers := h.headers ++ [(name, value)] }

/-- Modelled from the spec: set the `Date` header to a time: earlier `Date`
values are dropped and the formatted time is added. -/
def ResponseHeaders.SetDate (env : Collaborators) (h : ResponseHeaders) (date_ms : Int) :
    ResponseHeaders :=
  { h with headers := h.headers.filter (fun p => decide (p.1 ≠ HttpAttributes.kDate))
                        ++ [(HttpAttributes.kDate, env.ConvertTimeToString date_ms)] }

/-- Modelled from the spec: recompute the derived caching metadata from the
current status line and name/value pairs. -/
def ResponseHeaders.ComputeCaching (h : ResponseHeaders) : ResponseHeaders :=
  { h with caching := some (h.status_code, h.headers) }

/-- Modelled from the spec: a `Writer` receives byte sequences through `Write`
and answers with a boolean.  `written` lists the chunks received so far in
invocation order; `answers` is what `Write` returns, given the chunks received
before and the new chunk. -/
structure Writer where
  written : List Bytes
  answers : List Bytes → Bytes → Bool

/-- One invocation of `Write(str, message_handler)`: its boolean answer and the
writer afterwards. -/
def Writer.Write (w : Writer) (str : Bytes) : Bool × Writer :=
  (w.answers w.written str, { w with written := w.written ++ [str] })

/-- Conversion of a value to `int` (32 bit two's complement). -/
def toInt32 (n : Int) : Int :=
  (n + 2147483648) % 4294967296 - 2147483648

/-- Conversion of an `int` to `size_t` (64 bit, modular). -/
def toSizeT (n : Int) : Nat :=
  (n % 18446744073709551616).toNat

/-- The constant `StringPiece::npos`, the largest `size_t`. -/
def StringPiece.npos : Nat := 18446744073709551615

/-- Modelled from the spec: `StringPiece::substr(pos, n)`: the bytes from `pos`
on, at most `n` of them; a position or a count past the end is clamped to the
end. -/
def StringPiece.substr (s : Bytes) (pos n : Nat) : Bytes :=
  (s.drop pos).take n

/-! ## The stored responses -/

/-- Modelled from the spec: `HttpResponse`, the stored response record of
`mock_url_fetcher.h`: last-modified time, etag, headers, body and the success
flag. -/
structure HttpResponse where
  last_modified_time : Int
  etag : String
  header : ResponseHeaders
  body : Body
  success : Bool
deriving DecidableEq, Repr

/-- Modelled from the spec: the constructor `HttpResponse(last_modified_time,
etag, in_header, in_body)` copies its arguments and marks the response as
successful. -/
def HttpResponse.new (last_modified_time : Int) (etag : String)
    (in_header : ResponseHeaders) (in_body : Body) : HttpResponse :=
  { last_modified_time := last_modified_time, etag := etag, header := in_header,
    body := in_body, success := true }

/-- The method `set_success`. -/
def HttpResponse.set_success (r : HttpResponse) (success : Bool) : HttpResponse :=
  { r with success := success }

/-- The method `mutable_header` followed by an update of the header. -/
def HttpResponse.update_header (r : HttpResponse) (f : ResponseHeaders → ResponseHeaders) :
    HttpResponse :=
  { r with header := f r.header }

/-- The type `ResponseMap`, a `std::map` from url to the owned response: at
most one response per url; `find` is the lookup. -/
structure ResponseMap where
  find : String → Option HttpResponse

/-- The empty map (`clear()`). -/
def ResponseMap.clear : ResponseMap :=
  ⟨fun _ => none⟩

/-- The call `erase(iter)` for the entry of `key`. -/
def ResponseMap.erase (m : ResponseMap) (key : String) : ResponseMap :=
  ⟨fun u => if u = key then none else m.find u⟩

/-- The call `std::map::insert`: an entry that exists already is kept. -/
def ResponseMap.insert (m : ResponseMap) (key : String) (value : HttpResponse) : ResponseMap :=
  ⟨fun u => if u = key then (match m.find key with
                             | some old => some old
                             | none => some value)
            else m.find u⟩

/-- Overwrite the response an iterator points to (`iter->second` is mutated in
place). -/
def ResponseMap.assign (m : ResponseMap) (key : String) (value : HttpResponse) : ResponseMap :=
  ⟨fun u => if u = key then some value else m.find u⟩

/-- The class `MockUrlFetcher`: the response map, the toggles and the timer
(`none` is a NULL `timer_`, `some now` a timer whose `NowMs()` is `now`). -/
structure MockUrlFetcher where
  response_map_ : ResponseMap
  enabled_ : Bool
  fail_on_unexpected_ : Bool
  update_date_headers_ : Bool
  omit_empty_writes_ : Bool
  fail_after_headers_ : Bool
  verify_host_header_ : Bool
  split_writes_ : Bool
  timer_ : Option Int

namespace MockUrlFetcher

/-- Lines 91-98: `RemoveResponse`. -/
def RemoveResponse (self : MockUrlFetcher) (url : String) : MockUrlFetcher :=
  match self.response_map_.find url with
  | some _ => { self with response_map_ := self.response_map_.erase url }
  | none => self

/-- Lines 72-83: `SetConditionalResponse`. -/
def SetConditionalResponse (self : MockUrlFetcher) (url : String) (last_modified_time : Int)
    (etag : String) (response_header : ResponseHeaders) (response_body : Body) :
    MockUrlFetcher :=
  let self1 := self.RemoveResponse url
  let response := HttpResponse.new last_modified_time etag response_header response_body
  { self1 with response_map_ := self1.response_map_.insert url response }

/-- Lines 45-52: `SetResponse`. -/
def SetResponse (self : MockUrlFetcher) (url : String) (response_header : ResponseHeaders)
    (response_body : Body) : MockUrlFetcher :=
  self.SetConditionalResponse url 0 "" response_header response_body

/-- Lines 54-63: `AddToResponse`; `none` when the `CHECK` fails. -/
def AddToResponse (self : MockUrlFetcher) (url name value : String) : Option MockUrlFetcher :=
  match self.response_map_.find url with
  | none => none
  | some http_response =>
    some { self with
      response_map_ := self.response_map_.assign url
        (http_response.update_header (fun response => (response.Add name value).ComputeCaching)) }

/-- Lines 65-70: `SetResponseFailure`; `none` when the `CHECK` fails. -/
def SetResponseFailure (self : MockUrlFetcher) (url : String) : Option MockUrlFetcher :=
  match self.response_map_.find url with
  | none => none
  | some http_response =>
    some { self with response_map_ := self.response_map_.assign url (http_response.set_success false) }

/-- Lines 85-89: `Clear`. -/
def Clear (self : MockUrlFetcher) : MockUrlFetcher :=
  { self with response_map_ := ResponseMap.clear }

end MockUrlFetcher

/-! ## StreamingFetchUrl -/

/-- A failure recorded by an `EXPECT_*` assertion of the fetch. -/
inductive TestFailure where
  | hostMismatch (expected actual : String)
  | unsetUrl (url : String)
deriving DecidableEq, Repr

/-- Modelled from the spec: `EXPECT_STREQ(expected, actual)` of `gtest.h` on
string pieces: the two are compared for strict equality, a NULL `actual` counts
as the empty string, and a difference is recorded as a test failure. -/
def EXPECT_STREQ (expected : String) (actual : Option String) : List TestFailure :=
  if expected = actual.getD "" then [] else [TestFailure.hostMismatch expected (actual.getD "")]

/-- What a call of `StreamingFetchUrl` leaves behind: the returned boolean, the
fetcher, `*response_headers`, `*response_writer`, and the test failures
recorded by `EXPECT_*` during the call. -/
structure FetchResult where
  ret : Bool
  fetcher : MockUrlFetcher
  response_headers : ResponseHeaders
  response_writer : Writer
  failures : List TestFailure

namespace MockUrlFetcher

/-- Lines 122-126: the If-Modified-Since test.  Returns the truth value of the
condition and the vector `values` as the lookup left it. -/
def ifModifiedSinceTest (env : Collaborators) (request_headers : RequestHeaders)
    (response : HttpResponse) (values : List String) : Bool × List String :=
  let looked := request_headers.Lookup HttpAttributes.kIfModifiedSince values
  (looked.1 &&
    (match looked.2 with
     | [v] =>
       (match env.ConvertStringToTime v with
        | some if_modified_since_time =>
          decide (if_modified_since_time > 0) &&
            decide (if_modified_since_time ≥ response.last_modified_time)
        | none => false)
     | _ => false),
   looked.2)

/-- Lines 134-136: the If-None-Match test, on the vector `values` left by the
If-Modified-Since test. -/
def ifNoneMatchTest (request_headers : RequestHeaders) (response : HttpResponse)
    (values : List String) : Bool :=
  !decide (response.etag = "") &&
    (let looked := request_headers.Lookup HttpAttributes.kIfNoneMatch values
     looked.1 &&
       (match looked.2 with
        | [v] => decide (v = response.etag)
        | _ => false))

/-- Lines 108-112: the check of the `Host` header against the url; the test
failures it records. -/
def verifyHost (env : Collaborators) (self : MockUrlFetcher) (url : String)
    (request_headers : RequestHeaders) : List TestFailure :=
  if self.verify_host_header_ then
    let host_header := request_headers.Lookup1 HttpAttributes.kHost
    EXPECT_STREQ (env.HostAndPort url) host_header
  else []

/-- Lines 153-170: delivery of the body to the writer. -/
def writeBody (self : MockUrlFetcher) (response : HttpResponse) (response_writer : Writer) :
    Writer :=
  if !(response.body.val.isEmpty && self.omit_empty_writes_) then
    if !self.split_writes_ then
      (response_writer.Write response.body.val).2
    else
      let mid : Int := toInt32 ((response.body.val.length / 2 : Nat) : Int)
      let body := response.body.val
      let head := StringPiece.substr body 0 (toSizeT mid)
      let tail := StringPiece.substr body (toSizeT mid) StringPiece.npos
      let w1 := if !(head.isEmpty && self.omit_empty_writes_) then (response_writer.Write head).2
                else response_writer
      let w2 := if !(tail.isEmpty && self.omit_empty_writes_) then (w1.Write tail).2
                else w1
      w2
  else response_writer

/-- Lines 100-183: `StreamingFetchUrl`.  The result is `none` when
`CHECK(timer_ != NULL)` fails. -/
def StreamingFetchUrl (env : Collaborators) (self : MockUrlFetcher) (url : String)
    (request_headers : RequestHeaders) (response_headers : ResponseHeaders)
    (response_writer : Writer) : Option FetchResult :=
  let ret := false
  if self.enabled_ then
    let failures := verifyHost env self url request_headers
    match self.response_map_.find url with
    | some response =>
      let ret := response.success
      let values : List String := []
      let since := ifModifiedSinceTest env request_headers response values
      if since.1 then
        some { ret := ret, fetcher := self,
               response_headers := response_headers.SetStatusAndReason HttpStatus.kNotModified,
               response_writer := response_writer, failures := failures }
      else if ifNoneMatchTest request_headers response since.2 then
        some { ret := ret, fetcher := self,
               response_headers := response_headers.SetStatusAndReason HttpStatus.kNotModified,
               response_writer := response_writer, failures := failures }
      else
        let response_headers := response_headers.CopyFrom response.header
        if self.fail_after_headers_ then
          some { ret := false, fetcher := self, response_headers := response_headers,
                 response_writer := response_writer, failures := failures }
        else
          let dated : Option ResponseHeaders :=
            if self.update_date_headers_ then
              (match self.timer_ with
               | none => none
               | some now => some (response_headers.SetDate env now))
            else some response_headers
          match dated with
          | none => none
          | some response_headers =>
            let response_headers := response_headers.ComputeCaching
            some { ret := ret, fetcher := self, response_headers := response_headers,
                   response_writer := writeBody self response response_writer,
                   failures := failures }
    | none =>
      let failures :=
        if self.fail_on_unexpected_ then failures ++ [TestFailure.unsetUrl url] else failures
      some { ret := ret, fetcher := self, response_headers := response_headers,
             response_writer := response_writer, failures := failures }
  else
    some { ret := ret, fetcher := self, response_headers := response_headers,
           response_writer := response_writer, failures := [] }

end MockUrlFetcher

/-! ## The conditional rules in the words of the specification -/

/-- Rule (a) as the specification words it: the request carries exactly one
`If-Modified-Since` value, it parses as a time, the time is positive and it is
at least the stored last-modified time. -/
def SinceRule (env : Collaborators) (request_headers : RequestHeaders)
    (response : HttpResponse) : Prop :=
  ∃ v t, request_headers.valuesOf HttpAttributes.kIfModifiedSince = [v] ∧
    env.ConvertStringToTime v = some t ∧ 0 < t ∧ response.last_modified_time ≤ t

/-- Rule (b) as the specification words it: the stored etag is not empty and the
request carries exactly one `If-None-Match` value, equal to the stored etag. -/
def EtagRule (request_headers : RequestHeaders) (response : HttpResponse) : Prop :=
  response.etag ≠ "" ∧ request_headers.valuesOf HttpAttributes.kIfNoneMatch = [response.etag]

/-- The output headers of a delivery that is not cut short: the stored headers,
with the `Date` header set from the timer when `update_date_headers_` is on,
and the caching metadata recomputed (lines 142-151). -/
def deliveredHeaders (env : Collaborators) (self : MockUrlFetcher) (response : HttpResponse) :
    ResponseHeaders :=
  (if self.update_date_headers_ then response.header.SetDate env (self.timer_.getD 0)
   else response.header).ComputeCaching

/-! ## Concrete data used by the examples -/

/-- Collaborators for the examples: times are written as decimal milliseconds. -/
def exampleEnv : Collaborators :=
  { ConvertStringToTime := fun s => if s = "2000" then some 2000
                                    else if s = "1000" then some 1000 else none,
    ConvertTimeToString := fun t => if t = 5000 then "5000" else "other",
    HostAndPort := fun url => if url = "http://x/a" ∨ url = "http://x/b" then "x" else "" }

/-- A fetcher with an empty store, enabled, every other toggle off, no timer. -/
def emptyFetcher : MockUrlFetcher :=
  { response_map_ := ResponseMap.clear, enabled_ := true, fail_on_unexpected_ := false,
    update_date_headers_ := false, omit_empty_writes_ := false, fail_after_headers_ := false,
    verify_host_header_ := false, split_writes_ := false, timer_ := none }

/-- Response headers with status 200 and one header. -/
def okHeaders : ResponseHeaders :=
  { status_code := 200, reason_phrase := "OK", headers := [("Content-Type", "text/plain")],
    caching := none }

/-- The caller's output headers before a fetch. -/
def blankHeaders : ResponseHeaders :=
  { status_code := 0, reason_phrase := "", headers := [], caching := none }

/-- A writer that has received nothing and answers true. -/
def freshWriter : Writer :=
  { written := [], answers := fun _ _ => true }

/-- The body "hello". -/
def helloBody : Body := ⟨[104, 101, 108, 108, 111], by decide⟩

/-- The body "body". -/
def bodyBody : Body := ⟨[98, 111, 100, 121], by decide⟩

/-- The empty body. -/
def emptyBody : Body := ⟨[], by decide⟩

/-- A body of one byte. -/
def oneByteBody : Body := ⟨[120], by decide⟩

/-- A request without headers. -/
def noHeaders : RequestHeaders := ⟨[]⟩

/-- The fetcher of the first scenario: "hello" registered for http://x/a. -/
def helloFetcher : MockUrlFetcher :=
  emptyFetcher.SetResponse "http://x/a" okHeaders helloBody

/-- The fetcher of the second scenario: "body" registered for http://x/b with
last-modified time 1000 and no etag. -/
def conditionalFetcher : MockUrlFetcher :=
  emptyFetcher.SetConditionalResponse "http://x/b" 1000 "" okHeaders bodyBody

/-- A request with the single header `If-Modified-Since: 2000`. -/
def sinceRequest : RequestHeaders := ⟨[("If-Modified-Since", "2000")]⟩

/-- The first scenario with `update_date_headers_` on and no timer. -/
def datedNoTimerFetcher : MockUrlFetcher :=
  { helloFetcher with update_date_headers_ := true }

/-- The first scenario with `update_date_headers_` on and a timer at 5000 ms. -/
def datedFetcher : MockUrlFetcher :=
  { helloFetcher with update_date_headers_ := true, timer_ := some 5000 }

/-- The first scenario with `fail_after_headers_` on. -/
def failAfterFetcher : MockUrlFetcher :=
  { helloFetcher with fail_after_headers_ := true }

/-- A request with the single header `If-None-Match:` (an empty value). -/
def emptyMatchRequest : RequestHeaders := ⟨[("If-None-Match", "")]⟩

/-- A fetcher with "hello" registered for http://x/a under the etag "v1" and
last-modified time 1000. -/
def etagFetcher : MockUrlFetcher :=
  emptyFetcher.SetConditionalResponse "http://x/a" 1000 "v1" okHeaders helloBody

/-- A request with the single header `If-None-Match: v1`. -/
def matchRequest : RequestHeaders := ⟨[("If-None-Match", "v1")]⟩

/-- A request with `If-Modified-Since: 2000` and `If-None-Match: v2`. -/
def sinceAndOtherMatchRequest : RequestHeaders :=
  ⟨[("If-Modified-Since", "2000"), ("If-None-Match", "v2")]⟩

/-- The first scenario with `fail_after_headers_` and `update_date_headers_`
on and a timer at 5000 ms. -/
def failAfterDatedFetcher : MockUrlFetcher :=
  { helloFetcher with fail_after_headers_ := true, update_date_headers_ := true,
                      timer_ := some 5000 }

/-- The first scenario with `split_writes_` on. -/
def splitFetcher : MockUrlFetcher :=
  { helloFetcher with split_writes_ := true }

/-- A body of one byte registered for http://x/a, with `split_writes_` and
`omit_empty_writes_` on. -/
def splitOneByteFetcher : MockUrlFetcher :=
  { emptyFetcher.SetResponse "http://x/a" okHeaders oneByteBody with
      split_writes_ := true, omit_empty_writes_ := true }

/-- The first scenario with `split_writes_` and `fail_after_headers_` on. -/
def splitFailAfterFetcher : MockUrlFetcher :=
  { helloFetcher with split_writes_ := true, fail_after_headers_ := true }

/-- The first scenario with `split_writes_` and `update_date_headers_` on and
no timer. -/
def splitNoTimerFetcher : MockUrlFetcher :=
  { helloFetcher with split_writes_ := true, update_date_headers_ := true }

/-- An empty store, with `verify_host_header_` on and `fail_on_unexpected_`
off. -/
def verifyingFetcher : MockUrlFetcher :=
  { emptyFetcher with verify_host_header_ := true }

/-- An empty store with `fail_on_unexpected_` on. -/
def strictFetcher : MockUrlFetcher :=
  { emptyFetcher with fail_on_unexpected_ := true }

/-- A request with the single header `Host: y`. -/
def otherHostRequest : RequestHeaders := ⟨[("Host", "y")]⟩

/-- The first scenario, disabled, with `verify_host_header_` and
`fail_on_unexpected_` on. -/
def disabledFetcher : MockUrlFetcher :=
  { helloFetcher with enabled_ := false, verify_host_header_ := true,
                      fail_on_unexpected_ := true }

/-- A body of 2^32 zero bytes. -/
def hugeBody : Body :=
  ⟨List.replicate 4294967296 0, by rw [List.length_replicate]; decide⟩

/-- The body of 2^32 bytes registered for http://x/a, with `split_writes_` on. -/
def hugeSplitFetcher : MockUrlFetcher :=
  { emptyFetcher.SetResponse "http://x/a" okHeaders hugeBody with split_writes_ := true }

/-- Lines 107-112 and 177-179: the test failures a call of `StreamingFetchUrl`
signals through `EXPECT_*`.  They are signalled before the response is served,
so a call that later stops at `CHECK(timer_ != NULL)` has signalled them too. -/
def MockUrlFetcher.signalledFailures (env : Collaborators) (self : MockUrlFetcher)
    (url : String) (request_headers : RequestHeaders) : List TestFailure :=
  if self.enabled_ then
    let failures := verifyHost env self url request_headers
    match self.response_map_.find url with
    | some _ => failures
    | none =>
      if self.fail_on_unexpected_ then failures ++ [TestFailure.unsetUrl url] else failures
  else []

/-- The request without the headers called `name`. -/
def RequestHeaders.without (h : RequestHeaders) (name : String) : RequestHeaders :=
  ⟨h.headers.filter (fun p => decide (p.1 ≠ name))⟩

/-- Headers of a stored response that differ from `okHeaders`. -/
def otherHeaders : ResponseHeaders :=
  { status_code := 404, reason_phrase := "Not Found", headers := [("X-Old", "1")],
    caching := none }

/-- The second scenario's url with an entry that was extended by
`AddToResponse` and marked as a failure by `SetResponseFailure`. -/
def usedFetcher : Option MockUrlFetcher :=
  ((emptyFetcher.SetConditionalResponse "http://x/b" 500 "old" otherHeaders helloBody).AddToResponse
      "http://x/b" "X-More" "2").bind
    (fun extended => extended.SetResponseFailure "http://x/b")

/-- A writer that has received nothing and answers false to every write. -/
def failingWriter : Writer :=
  { written := [], answers := fun _ _ => false }

/-- A request with the single header `Host: x`. -/
def hostRequest : RequestHeaders := ⟨[("Host", "x")]⟩

/-- A request with two `Host` headers. -/
def twoHostsRequest : RequestHeaders := ⟨[("Host", "x"), ("Host", "x")]⟩

/-- The first scenario with `verify_host_header_` on. -/
def verifyingHelloFetcher : MockUrlFetcher :=
  { helloFetcher with verify_host_header_ := true }

/-- Headers of a stored response with status 304. -/
def notModifiedHeaders : ResponseHeaders :=
  { status_code := 304, reason_phrase := "Not Modified", headers := [], caching := none }

/-- A fetcher with a response of status 304 registered for http://x/a. -/
def storedNotModifiedFetcher : MockUrlFetcher :=
  emptyFetcher.SetResponse "http://x/a" notModifiedHeaders helloBody

/-- The fetcher `etagFetcher` with other stored headers and another body. -/
def otherEtagFetcher : MockUrlFetcher :=
  emptyFetcher.SetConditionalResponse "http://x/a" 1000 "v1" otherHeaders bodyBody

/-- The call reaches `CHECK(timer_ != NULL)` of line 147 with a NULL timer:
the fetcher is enabled, the url is registered, neither rule (a) nor rule (b)
holds, `fail_after_headers_` is off, `update_date_headers_` is on and there is
no timer. -/
def StopsAtCheck (env : Collaborators) (self : MockUrlFetcher) (url : String)
    (request_headers : RequestHeaders) : Prop :=
  self.enabled_ = true ∧
    ∃ response, self.response_map_.find url = some response ∧
      ¬ SinceRule env request_headers response ∧ ¬ EtagRule request_headers response ∧
      self.fail_after_headers_ = false ∧ self.update_date_headers_ = true ∧
      self.timer_ = none

/-- The chunks a delivery of the body of `response` hands to the writer
(lines 153-170), whatever the writer is. -/
def MockUrlFetcher.bodyChunks (self : MockUrlFetcher) (response : HttpResponse) : List Bytes :=
  (writeBody self response { written := [], answers := fun _ _ => true }).written

open MockUrlFetcher

/-! ## Facts about the lookups and the conditional tests -/

theorem toSizeT_toInt32_half (n : Nat) (h : n < 4294967296) :
    toSizeT (toInt32 ((n / 2 : Nat) : Int)) = n / 2 := by
  unfold toSizeT toInt32
  omega

theorem ifModifiedSinceTest_iff (env : Collaborators) (request_headers : RequestHeaders)
    (response : HttpResponse) (values : List String) :
    (ifModifiedSinceTest env request_headers response values).1 = true ↔
      SinceRule env request_headers response := by
  unfold ifModifiedSinceTest SinceRule RequestHeaders.Lookup
  cases h : request_headers.valuesOf HttpAttributes.kIfModifiedSince with
  | nil => simp
  | cons v vs =>
    cases vs with
    | nil =>
      cases hp : env.ConvertStringToTime v with
      | none => simp [hp]
      | some t => simp [hp]
    | cons w ws => simp

theorem ifNoneMatchTest_iff (request_headers : RequestHeaders) (response : HttpResponse)
    (values : List String) :
    ifNoneMatchTest request_headers response values = true ↔
      EtagRule request_headers response := by
  unfold ifNoneMatchTest EtagRule RequestHeaders.Lookup
  cases h : request_headers.valuesOf HttpAttributes.kIfNoneMatch with
  | nil =>
    simp
  | cons v vs =>
    cases vs with
    | nil => simp
    | cons w ws => simp

/-! ## The branches of StreamingFetchUrl -/

theorem fetch_disabled (env : Collaborators) (self : MockUrlFetcher) (url : String)
    (request_headers : RequestHeaders) (response_headers : ResponseHeaders)
    (response_writer : Writer) (henabled : self.enabled_ = false) :
    StreamingFetchUrl env self url request_headers response_headers response_writer =
      some { ret := false, fetcher := self, response_headers := response_headers,
             response_writer := response_writer, failures := [] } := by
  simp [StreamingFetchUrl, henabled]

theorem fetch_unset (env : Collaborators) (self : MockUrlFetcher) (url : String)
    (request_headers : RequestHeaders) (response_headers : ResponseHeaders)
    (response_writer : Writer) (henabled : self.enabled_ = true)
    (hfind : self.response_map_.find url = none) :
    StreamingFetchUrl env self url request_headers response_headers response_writer =
      some { ret := false, fetcher := self, response_headers := response_headers,
             response_writer := response_writer,
             failures := if self.fail_on_unexpected_ then
                           verifyHost env self url request_headers ++ [TestFailure.unsetUrl url]
                         else verifyHost env self url request_headers } := by
  simp [StreamingFetchUrl, henabled, hfind]

theorem fetch_since (env : Collaborators) (self : MockUrlFetcher) (url : String)
    (request_headers : RequestHeaders) (response_headers : ResponseHeaders)
    (response_writer : Writer) (response : HttpResponse) (henabled : self.enabled_ = true)
    (hfind : self.response_map_.find url = some response)
    (hsince : SinceRule env request_headers response) :
    StreamingFetchUrl env self url request_headers response_headers response_writer =
      some { ret := response.success, fetcher := self,
             response_headers := response_headers.SetStatusAndReason HttpStatus.kNotModified,
             response_writer := response_writer,
             failures := verifyHost env self url request_headers } := by
  have h := (ifModifiedSinceTest_iff env request_headers response []).mpr hsince
  simp [StreamingFetchUrl, henabled, hfind, h]

theorem fetch_etag (env : Collaborators) (self : MockUrlFetcher) (url : String)
    (request_headers : RequestHeaders) (response_headers : ResponseHeaders)
    (response_writer : Writer) (response : HttpResponse) (henabled : self.enabled_ = true)
    (hfind : self.response_map_.find url = some response)
    (hetag : EtagRule request_headers response) :
    StreamingFetchUrl env self url request_headers response_headers response_writer =
      some { ret := response.success, fetcher := self,
             response_headers := response_headers.SetStatusAndReason HttpStatus.kNotModified,
             response_writer := response_writer,
             failures := verifyHost env self url request_headers } := by
  have h := fun values => (ifNoneMatchTest_iff request_headers response values).mpr hetag
  by_cases hs : (ifModifiedSinceTest env request_headers response []).1 = true
  · simp [StreamingFetchUrl, henabled, hfind, hs]
  · simp [StreamingFetchUrl, henabled, hfind, hs, h]

theorem fetch_fail_after_headers (env : Collaborators) (self : MockUrlFetcher) (url : String)
    (request_headers : RequestHeaders) (response_headers : ResponseHeaders)
    (response_writer : Writer) (response : HttpResponse) (henabled : self.enabled_ = true)
    (hfind : self.response_map_.find url = some response)
    (hsince : ¬ SinceRule env request_headers response)
    (hetag : ¬ EtagRule request_headers response)
    (hfail : self.fail_after_headers_ = true) :
    StreamingFetchUrl env self url request_headers response_headers response_writer =
      some { ret := false, fetcher := self, response_headers := response.header,
             response_writer := response_writer,
             failures := verifyHost env self url request_headers } := by
  have h1 : ¬ (ifModifiedSinceTest env request_headers response []).1 = true :=
    fun h => hsince ((ifModifiedSinceTest_iff env request_headers response []).mp h)
  have h2 : ∀ values, ¬ ifNoneMatchTest request_headers response values = true :=
    fun values h => hetag ((ifNoneMatchTest_iff request_headers response values).mp h)
  simp [StreamingFetchUrl, henabled, hfind, h1, h2, hfail, ResponseHeaders.CopyFrom]

theorem fetch_deliver (env : Collaborators) (self : MockUrlFetcher) (url : String)
    (request_headers : RequestHeaders) (response_headers : ResponseHeaders)
    (response_writer : Writer) (response : HttpResponse) (henabled : self.enabled_ = true)
    (hfind : self.response_map_.find url = some response)
    (hsince : ¬ SinceRule env request_headers response)
    (hetag : ¬ EtagRule request_headers response)
    (hfail : self.fail_after_headers_ = false)
    (htimer : self.update_date_headers_ = true → self.timer_ ≠ none) :
    StreamingFetchUrl env self url request_headers response_headers response_writer =
      some { ret := response.success, fetcher := self,
             response_headers := deliveredHeaders env self response,
             response_writer := writeBody self response response_writer,
             failures := verifyHost env self url request_headers } := by
  have h1 : ¬ (ifModifiedSinceTest env request_headers response []).1 = true :=
    fun h => hsince ((ifModifiedSinceTest_iff env request_headers response []).mp h)
  have h2 : ∀ values, ¬ ifNoneMatchTest request_headers response values = true :=
    fun values h => hetag ((ifNoneMatchTest_iff request_headers response values).mp h)
  by_cases hu : self.update_date_headers_ = true
  · cases ht : self.timer_ with
    | none => exact absurd ht (htimer hu)
    | some now =>
      simp [StreamingFetchUrl, henabled, hfind, h1, h2, hfail, hu, ht, deliveredHeaders,
        ResponseHeaders.CopyFrom]
  · simp [StreamingFetchUrl, henabled, hfind, h1, h2, hfail, hu, deliveredHeaders,
      ResponseHeaders.CopyFrom]

theorem fetch_check_fails (env : Collaborators) (self : MockUrlFetcher) (url : String)
    (request_headers : RequestHeaders) (response_headers : ResponseHeaders)
    (response_writer : Writer) (response : HttpResponse) (henabled : self.enabled_ = true)
    (hfind : self.response_map_.find url = some response)
    (hsince : ¬ SinceRule env request_headers response)
    (hetag : ¬ EtagRule request_headers response)
    (hfail : self.fail_after_headers_ = false)
    (hupdate : self.update_date_headers_ = true) (htimer : self.timer_ = none) :
    StreamingFetchUrl env self url request_headers response_headers response_writer = none := by
  have h1 : ¬ (ifModifiedSinceTest env request_headers response []).1 = true :=
    fun h => hsince ((ifModifiedSinceTest_iff env request_headers response []).mp h)
  have h2 : ∀ values, ¬ ifNoneMatchTest request_headers response values = true :=
    fun values h => hetag ((ifNoneMatchTest_iff request_headers response values).mp h)
  simp [StreamingFetchUrl, henabled, hfind, h1, h2, hfail, hupdate, htimer]

theorem not_SinceRule_of_absent (env : Collaborators) (request_headers : RequestHeaders)
    (response : HttpResponse)
    (h : request_headers.valuesOf HttpAttributes.kIfModifiedSince = []) :
    ¬ SinceRule env request_headers response := by
  rintro ⟨v, t, hv, _⟩
  rw [h] at hv
  exact absurd hv (by simp)

theorem not_EtagRule_of_absent (request_headers : RequestHeaders) (response : HttpResponse)
    (h : request_headers.valuesOf HttpAttributes.kIfNoneMatch = []) :
    ¬ EtagRule request_headers response := by
  rintro ⟨_, hv⟩
  rw [h] at hv
  exact absurd hv (by simp)

theorem not_EtagRule_of_empty (request_headers : RequestHeaders) (response : HttpResponse)
    (h : response.etag = "") : ¬ EtagRule request_headers response :=
  fun he => he.1 h

/-! ## Delivery of the body -/

theorem substr_from_start (s : Bytes) (n : Nat) : StringPiece.substr s 0 n = s.take n := by
  simp [StringPiece.substr]

theorem substr_to_end (s : Bytes) (pos : Nat) (h : s.length < 18446744073709551616) :
    StringPiece.substr s pos StringPiece.npos = s.drop pos := by
  unfold StringPiece.substr StringPiece.npos
  apply List.take_of_length_le
  simp only [List.length_drop]
  omega

/-- The split position `int mid` of line 159, as the `size_t` handed to
`substr`. -/
theorem writeBody_eq (self : MockUrlFetcher) (response : HttpResponse) (w : Writer) :
    writeBody self response w =
      if !(response.body.val.isEmpty && self.omit_empty_writes_) then
        if !self.split_writes_ then
          { w with written := w.written ++ [response.body.val] }
        else
          let m := toSizeT (toInt32 ((response.body.val.length / 2 : Nat) : Int))
          let w1 := if !((response.body.val.take m).isEmpty && self.omit_empty_writes_) then
                      { w with written := w.written ++ [response.body.val.take m] }
                    else w
          if !((response.body.val.drop m).isEmpty && self.omit_empty_writes_) then
            { w1 with written := w1.written ++ [response.body.val.drop m] }
          else w1
      else w := by
  unfold writeBody Writer.Write
  simp only [substr_from_start, substr_to_end _ _ response.body.property]

theorem writeBody_answers (self : MockUrlFetcher) (response : HttpResponse) (w : Writer) :
    (writeBody self response w).answers = w.answers := by
  rw [writeBody_eq]
  generalize toSizeT (toInt32 ((response.body.val.length / 2 : Nat) : Int)) = m
  by_cases h0 : (response.body.val.isEmpty && self.omit_empty_writes_) = true
  · simp only [h0, Bool.not_true, Bool.false_eq_true, if_false]
  · by_cases h1 : self.split_writes_ = true
    · by_cases h2 : ((response.body.val.take m).isEmpty && self.omit_empty_writes_) = true <;>
        by_cases h3 : ((response.body.val.drop m).isEmpty && self.omit_empty_writes_) = true <;>
          simp only [h0, h1, h2, h3, Bool.not_true, Bool.not_false, Bool.false_eq_true,
            if_false, if_true]
    · simp only [h0, h1, Bool.not_false, if_true]

theorem writeBody_written (self : MockUrlFetcher) (response : HttpResponse) (w : Writer) :
    (writeBody self response w).written =
      w.written ++
        (if (response.body.val.isEmpty && self.omit_empty_writes_) = true then []
         else if self.split_writes_ = true then
           [response.body.val.take
              (toSizeT (toInt32 ((response.body.val.length / 2 : Nat) : Int))),
            response.body.val.drop
              (toSizeT (toInt32 ((response.body.val.length / 2 : Nat) : Int)))].filter
             (fun c => !(c.isEmpty && self.omit_empty_writes_))
         else [response.body.val]) := by
  rw [writeBody_eq]
  generalize toSizeT (toInt32 ((response.body.val.length / 2 : Nat) : Int)) = m
  cases h0 : (response.body.val.isEmpty && self.omit_empty_writes_)
  · cases h1 : self.split_writes_
    · simp
    · simp only [Bool.not_true, Bool.not_false, Bool.false_eq_true, if_false, if_true,
        List.filter_cons, List.filter_nil]
      generalize ((List.take m response.body.val).isEmpty && self.omit_empty_writes_) = a
      generalize ((List.drop m response.body.val).isEmpty && self.omit_empty_writes_) = b
      cases a <;> cases b <;> simp
  · simp

theorem isEmpty_eq_true_nil (c : Bytes) (h : c.isEmpty = true) : c = [] :=
  List.isEmpty_iff.mp h

theorem isEmpty_eq_false_ne_nil (c : Bytes) (h : c.isEmpty = false) : c ≠ [] := by
  intro hc
  rw [hc] at h
  exact absurd h (by decide)

theorem flatten_filter_nonempty (b : Bool) (l : List Bytes) :
    (l.filter (fun c => !(c.isEmpty && b))).flatten = l.flatten := by
  induction l with
  | nil => rfl
  | cons c cs ih =>
    simp only [List.filter_cons]
    cases hcb : (c.isEmpty && b)
    · simp only [Bool.not_false, if_true, List.flatten_cons, ih]
    · have hnil : c = [] := by
        apply isEmpty_eq_true_nil
        cases hi : c.isEmpty
        · rw [hi, Bool.false_and] at hcb; exact absurd hcb Bool.false_ne_true
        · rfl
      simp only [Bool.not_true, Bool.false_eq_true, if_false, ih, hnil, List.flatten_cons,
        List.nil_append]

/-- What the writer has received after the delivery of a body: the chunks it
had, followed by at most two new chunks that add up to the body; none of the
new chunks is empty when empty writes are omitted. -/
theorem writeBody_chunks (self : MockUrlFetcher) (response : HttpResponse) (w : Writer) :
    ∃ chunks : List Bytes,
      (writeBody self response w).written = w.written ++ chunks ∧
      chunks.flatten = response.body.val ∧ chunks.length ≤ 2 ∧
      (self.omit_empty_writes_ = true → ∀ c ∈ chunks, c ≠ []) := by
  refine ⟨_, writeBody_written self response w, ?_, ?_, ?_⟩
  · generalize toSizeT (toInt32 ((response.body.val.length / 2 : Nat) : Int)) = m
    cases h0 : (response.body.val.isEmpty && self.omit_empty_writes_)
    · cases h1 : self.split_writes_
      · simp only [Bool.false_eq_true, if_false, List.flatten_cons, List.flatten_nil,
          List.append_nil]
      · simp only [Bool.false_eq_true, if_false, if_true, flatten_filter_nonempty,
          List.flatten_cons, List.flatten_nil, List.append_nil, List.take_append_drop]
    · have hnil : response.body.val = [] := by
        apply isEmpty_eq_true_nil
        cases hi : response.body.val.isEmpty
        · rw [hi, Bool.false_and] at h0; exact absurd h0 Bool.false_ne_true
        · rfl
      simp only [if_true, List.flatten_nil, hnil]
  · generalize toSizeT (toInt32 ((response.body.val.length / 2 : Nat) : Int)) = m
    cases h0 : (response.body.val.isEmpty && self.omit_empty_writes_)
    · cases h1 : self.split_writes_
      · simp only [Bool.false_eq_true, if_false, List.length_cons, List.length_nil]
        omega
      · simp only [Bool.false_eq_true, if_false, if_true]
        exact le_trans (List.length_filter_le _ _) (le_of_eq rfl)
    · simp only [if_true, List.length_nil]
      omega
  · intro homit c hc
    generalize toSizeT (toInt32 ((response.body.val.length / 2 : Nat) : Int)) = m at hc
    rw [homit] at hc
    simp only [Bool.and_true] at hc
    cases h0 : response.body.val.isEmpty
    · rw [h0] at hc
      cases h1 : self.split_writes_
      · rw [h1] at hc
        simp only [Bool.false_eq_true, if_false, List.mem_singleton] at hc
        rw [hc]
        exact isEmpty_eq_false_ne_nil _ h0
      · rw [h1] at hc
        simp only [Bool.false_eq_true, if_false, if_true, List.mem_filter] at hc
        apply isEmpty_eq_false_ne_nil
        cases hi : c.isEmpty
        · rfl
        · rw [hi] at hc; exact absurd hc.2 (by decide)
    · rw [h0] at hc
      simp only [if_true, List.not_mem_nil] at hc

theorem writeBody_split_small (self : MockUrlFetcher) (response : HttpResponse) (w : Writer)
    (hsplit : self.split_writes_ = true)
    (hsize : response.body.val.length < 4294967296) :
    (writeBody self response w).written =
      w.written ++
        (if self.omit_empty_writes_ = true ∧ response.body.val.length = 0 then []
         else if self.omit_empty_writes_ = true ∧ response.body.val.length = 1 then
           [response.body.val]
         else [response.body.val.take (response.body.val.length / 2),
               response.body.val.drop (response.body.val.length / 2)]) := by
  rw [writeBody_written, toSizeT_toInt32_half _ hsize]
  congr 1
  cases hb : response.body.val with
  | nil => cases ho : self.omit_empty_writes_ <;> simp [hsplit, ho, List.filter_cons]
  | cons x xs =>
    cases xs with
    | nil => cases ho : self.omit_empty_writes_ <;> simp [hsplit, ho, List.filter_cons]
    | cons y ys =>
      have h2 : (x :: y :: ys).length / 2 = (ys.length / 2) + 1 := by
        simp only [List.length_cons]; omega
      have hd : ((x :: y :: ys).drop ((ys.length / 2) + 1)) ≠ [] := by
        intro hnil
        have := congrArg List.length hnil
        simp only [List.length_drop, List.length_cons, List.length_nil] at this
        omega
      cases ho : self.omit_empty_writes_
      · simp [hsplit, List.filter_cons]
      · rw [h2]
        have hdi : ((x :: y :: ys).drop ((ys.length / 2) + 1)).isEmpty = false := by
          cases hh : (x :: y :: ys).drop ((ys.length / 2) + 1) with
          | nil => exact absurd hh hd
          | cons a as => rfl
        simp only [List.take_succ_cons, hsplit, List.filter_cons, List.isEmpty_cons, Bool.false_and,
          Bool.not_false, hdi, Bool.and_true, List.length_cons]
        simp

theorem writeBody_not_split (self : MockUrlFetcher) (response : HttpResponse) (w : Writer)
    (hsplit : self.split_writes_ = false)
    (h : self.omit_empty_writes_ = false ∨ response.body.val ≠ []) :
    (writeBody self response w).written = w.written ++ [response.body.val] := by
  rw [writeBody_written]
  have h0 : (response.body.val.isEmpty && self.omit_empty_writes_) = false := by
    rcases h with h | h
    · rw [h, Bool.and_false]
    · cases hi : response.body.val.isEmpty
      · rw [Bool.false_and]
      · exact absurd (isEmpty_eq_true_nil _ hi) h
  simp only [h0, hsplit, Bool.false_eq_true, if_false]

theorem writeBody_omitted (self : MockUrlFetcher) (response : HttpResponse) (w : Writer)
    (homit : self.omit_empty_writes_ = true) (h : response.body.val = []) :
    (writeBody self response w).written = w.written := by
  rw [writeBody_written]
  simp only [h, homit, List.isEmpty_nil, Bool.and_self, if_true, List.append_nil]

/-! ## The store operations -/

theorem find_SetConditionalResponse (self : MockUrlFetcher) (url : String)
    (last_modified_time : Int) (etag : String) (response_header : ResponseHeaders)
    (response_body : Body) (u : String) :
    (self.SetConditionalResponse url last_modified_time etag response_header
        response_body).response_map_.find u =
      if u = url then some (HttpResponse.new last_modified_time etag response_header response_body)
      else self.response_map_.find u := by
  unfold SetConditionalResponse RemoveResponse
  cases h : self.response_map_.find url with
  | none =>
    by_cases hu : u = url
    · simp [ResponseMap.insert, hu, h]
    · simp [ResponseMap.insert, hu]
  | some old =>
    by_cases hu : u = url
    · simp [ResponseMap.insert, ResponseMap.erase, hu]
    · simp [ResponseMap.insert, ResponseMap.erase, hu]

theorem toggles_SetConditionalResponse (self : MockUrlFetcher) (url : String)
    (last_modified_time : Int) (etag : String) (response_header : ResponseHeaders)
    (response_body : Body) :
    self.SetConditionalResponse url last_modified_time etag response_header response_body =
      { self with response_map_ :=
          (self.SetConditionalResponse url last_modified_time etag response_header
            response_body).response_map_ } := by
  unfold SetConditionalResponse RemoveResponse
  cases h : self.response_map_.find url <;> rfl

theorem SetResponseFailure_eq (self : MockUrlFetcher) (url : String) (response : HttpResponse)
    (hfind : self.response_map_.find url = some response) :
    self.SetResponseFailure url =
      some { self with
        response_map_ := self.response_map_.assign url (response.set_success false) } := by
  unfold SetResponseFailure
  rw [hfind]

theorem writeBody_congr (self other : MockUrlFetcher) (response changed : HttpResponse)
    (w : Writer) (homit : other.omit_empty_writes_ = self.omit_empty_writes_)
    (hsplit : other.split_writes_ = self.split_writes_) (hbody : changed.body = response.body) :
    writeBody other changed w = writeBody self response w := by
  unfold writeBody
  rw [homit, hsplit, hbody]

/-- A fetcher that differs from `self` only in its response map, where the
entry of `url` has lost its success flag, answers a fetch of `url` like `self`
does, except that it returns false. -/
theorem fetch_after_set_success (env : Collaborators) (self : MockUrlFetcher) (m : ResponseMap)
    (url : String) (request_headers : RequestHeaders) (response_headers : ResponseHeaders)
    (response_writer : Writer) (response : HttpResponse)
    (hfind : self.response_map_.find url = some response)
    (hm : m.find url = some (response.set_success false)) :
    (∀ r, StreamingFetchUrl env self url request_headers response_headers response_writer
          = some r →
      StreamingFetchUrl env { self with response_map_ := m } url request_headers
          response_headers response_writer
        = some { r with ret := false, fetcher := { self with response_map_ := m } }) ∧
    (StreamingFetchUrl env self url request_headers response_headers response_writer = none →
      StreamingFetchUrl env { self with response_map_ := m } url request_headers
          response_headers response_writer = none) := by
  by_cases henabled : self.enabled_ = true
  · by_cases hs : SinceRule env request_headers response
    · rw [fetch_since env self url request_headers response_headers response_writer response
        henabled hfind hs,
        fetch_since env { self with response_map_ := m } url request_headers response_headers
          response_writer (response.set_success false) henabled hm hs]
      exact ⟨fun r hr => by cases hr; rfl, fun h => by cases h⟩
    · by_cases he : EtagRule request_headers response
      · rw [fetch_etag env self url request_headers response_headers response_writer response
          henabled hfind he,
          fetch_etag env { self with response_map_ := m } url request_headers response_headers
            response_writer (response.set_success false) henabled hm he]
        exact ⟨fun r hr => by cases hr; rfl, fun h => by cases h⟩
      · by_cases hfail : self.fail_after_headers_ = true
        · rw [fetch_fail_after_headers env self url request_headers response_headers
            response_writer response henabled hfind hs he hfail,
            fetch_fail_after_headers env { self with response_map_ := m } url request_headers
              response_headers response_writer (response.set_success false) henabled hm hs he
              hfail]
          exact ⟨fun r hr => by cases hr; rfl, fun h => by cases h⟩
        · have hfail0 : self.fail_after_headers_ = false := by
            cases h : self.fail_after_headers_
            · rfl
            · exact absurd h hfail
          by_cases htimer : self.update_date_headers_ = true → self.timer_ ≠ none
          · rw [fetch_deliver env self url request_headers response_headers response_writer
              response henabled hfind hs he hfail0 htimer,
              fetch_deliver env { self with response_map_ := m } url request_headers
                response_headers response_writer (response.set_success false) henabled hm hs he
                hfail0 htimer]
            refine ⟨fun r hr => ?_, fun h => by cases h⟩
            cases hr
            simp only [Option.some.injEq, FetchResult.mk.injEq, true_and, and_true]
            refine ⟨?_, ?_, ?_, ?_⟩
            · rfl
            · rfl
            · exact writeBody_congr self { self with response_map_ := m } response
                (response.set_success false) response_writer rfl rfl rfl
            · rfl
          · have hu : self.update_date_headers_ = true := by
              by_contra hn
              exact htimer (fun h => absurd h hn)
            have ht : self.timer_ = none := by
              by_contra hn
              exact htimer (fun _ => hn)
            rw [fetch_check_fails env self url request_headers response_headers
              response_writer response henabled hfind hs he hfail0 hu ht,
              fetch_check_fails env { self with response_map_ := m } url request_headers
                response_headers response_writer (response.set_success false) henabled hm hs he
                hfail0 hu ht]
            exact ⟨fun r hr => (by cases hr), fun _ => rfl⟩
  · have hdis : self.enabled_ = false := by
      cases h : self.enabled_
      · rfl
      · exact absurd h henabled
    rw [fetch_disabled env self url request_headers response_headers response_writer hdis,
      fetch_disabled env { self with response_map_ := m } url request_headers response_headers
        response_writer hdis]
    exact ⟨fun r hr => by cases hr; rfl, fun h => by cases h⟩

theorem hugeBody_length : hugeBody.val.length = 4294967296 :=
  List.length_replicate _ _

theorem hugeBody_split_position :
    toSizeT (toInt32 ((hugeBody.val.length / 2 : Nat) : Int)) = 18446744071562067968 := by
  rw [hugeBody_length]
  decide

theorem hugeBody_written :
    (StreamingFetchUrl exampleEnv hugeSplitFetcher "http://x/a" noHeaders blankHeaders
        freshWriter).map (fun r => r.response_writer.written) = some [hugeBody.val, []] := by
  have hfind : hugeSplitFetcher.response_map_.find "http://x/a" =
      some (HttpResponse.new 0 "" okHeaders hugeBody) := by
    show (emptyFetcher.SetConditionalResponse "http://x/a" 0 "" okHeaders
      hugeBody).response_map_.find "http://x/a" = _
    rw [find_SetConditionalResponse, if_pos rfl]
  rw [fetch_deliver exampleEnv hugeSplitFetcher "http://x/a" noHeaders blankHeaders freshWriter
    (HttpResponse.new 0 "" okHeaders hugeBody) rfl hfind
    (not_SinceRule_of_absent _ _ _ (by decide)) (not_EtagRule_of_absent _ _ (by decide)) rfl
    (fun h => absurd h (by decide))]
  simp only [Option.map_some']
  rw [writeBody_written]
  have homit : hugeSplitFetcher.omit_empty_writes_ = false := rfl
  have hsplit : hugeSplitFetcher.split_writes_ = true := rfl
  have hbody : (HttpResponse.new 0 "" okHeaders hugeBody).body = hugeBody := rfl
  rw [homit, hsplit, hbody, hugeBody_split_position]
  have htake : List.take 18446744071562067968 hugeBody.val = hugeBody.val :=
    List.take_of_length_le (by rw [hugeBody_length]; decide)
  have hdrop : List.drop 18446744071562067968 hugeBody.val = [] :=
    List.drop_of_length_le (by rw [hugeBody_length]; decide)
  rw [htake, hdrop]
  simp only [Bool.and_false, Bool.false_eq_true, if_false, if_true, List.filter_cons,
    List.filter_nil, Bool.not_false]
  rfl

/-! ## Facts for the store -/

theorem find_RemoveResponse (self : MockUrlFetcher) (url u : String) :
    (self.RemoveResponse url).response_map_.find u =
      if u = url then none else self.response_map_.find u := by
  unfold RemoveResponse
  cases h : self.response_map_.find url with
  | none =>
    by_cases hu : u = url
    · simp [hu, h]
    · simp [hu]
  | some old =>
    by_cases hu : u = url
    · simp [ResponseMap.erase, hu]
    · simp [ResponseMap.erase, hu]

theorem RemoveResponse_absent (self : MockUrlFetcher) (url : String)
    (h : self.response_map_.find url = none) : self.RemoveResponse url = self := by
  unfold RemoveResponse
  rw [h]

/-! ## The cases of a fetch -/

theorem bool_eq_false_of_ne_true (b : Bool) (h : ¬ b = true) : b = false := by
  cases b
  · rfl
  · exact absurd rfl h

/-- Every call of `StreamingFetchUrl` falls into one of six cases. -/
theorem fetch_cases (env : Collaborators) (self : MockUrlFetcher) (url : String)
    (request_headers : RequestHeaders) (response_headers : ResponseHeaders)
    (response_writer : Writer) :
    (self.enabled_ = false ∧
      StreamingFetchUrl env self url request_headers response_headers response_writer =
        some { ret := false, fetcher := self, response_headers := response_headers,
               response_writer := response_writer, failures := [] }) ∨
    (self.enabled_ = true ∧ self.response_map_.find url = none ∧
      StreamingFetchUrl env self url request_headers response_headers response_writer =
        some { ret := false, fetcher := self, response_headers := response_headers,
               response_writer := response_writer,
               failures := if self.fail_on_unexpected_ then
                             verifyHost env self url request_headers ++ [TestFailure.unsetUrl url]
                           else verifyHost env self url request_headers }) ∨
    (∃ response, self.enabled_ = true ∧ self.response_map_.find url = some response ∧
      (SinceRule env request_headers response ∨ EtagRule request_headers response) ∧
      StreamingFetchUrl env self url request_headers response_headers response_writer =
        some { ret := response.success, fetcher := self,
               response_headers := response_headers.SetStatusAndReason HttpStatus.kNotModified,
               response_writer := response_writer,
               failures := verifyHost env self url request_headers }) ∨
    (∃ response, self.enabled_ = true ∧ self.response_map_.find url = some response ∧
      ¬ SinceRule env request_headers response ∧ ¬ EtagRule request_headers response ∧
      self.fail_after_headers_ = true ∧
      StreamingFetchUrl env self url request_headers response_headers response_writer =
        some { ret := false, fetcher := self, response_headers := response.header,
               response_writer := response_writer,
               failures := verifyHost env self url request_headers }) ∨
    (∃ response, self.enabled_ = true ∧ self.response_map_.find url = some response ∧
      ¬ SinceRule env request_headers response ∧ ¬ EtagRule request_headers response ∧
      self.fail_after_headers_ = false ∧
      (self.update_date_headers_ = true → self.timer_ ≠ none) ∧
      StreamingFetchUrl env self url request_headers response_headers response_writer =
        some { ret := response.success, fetcher := self,
               response_headers := deliveredHeaders env self response,
               response_writer := writeBody self response response_writer,
               failures := verifyHost env self url request_headers }) ∨
    (StopsAtCheck env self url request_headers ∧
      StreamingFetchUrl env self url request_headers response_headers response_writer = none) := by
  by_cases henabled : self.enabled_ = true
  · cases hfind : self.response_map_.find url with
    | none =>
      exact Or.inr (Or.inl ⟨henabled, rfl, fetch_unset env self url request_headers
        response_headers response_writer henabled hfind⟩)
    | some response =>
      by_cases hs : SinceRule env request_headers response
      · exact Or.inr (Or.inr (Or.inl ⟨response, henabled, rfl, Or.inl hs,
          fetch_since env self url request_headers response_headers response_writer response
            henabled hfind hs⟩))
      · by_cases he : EtagRule request_headers response
        · exact Or.inr (Or.inr (Or.inl ⟨response, henabled, rfl, Or.inr he,
            fetch_etag env self url request_headers response_headers response_writer response
              henabled hfind he⟩))
        · by_cases hfail : self.fail_after_headers_ = true
          · exact Or.inr (Or.inr (Or.inr (Or.inl ⟨response, henabled, rfl, hs, he, hfail,
              fetch_fail_after_headers env self url request_headers response_headers
                response_writer response henabled hfind hs he hfail⟩)))
          · have hfail0 := bool_eq_false_of_ne_true _ hfail
            by_cases htimer : self.update_date_headers_ = true → self.timer_ ≠ none
            · exact Or.inr (Or.inr (Or.inr (Or.inr (Or.inl ⟨response, henabled, rfl, hs, he,
                hfail0, htimer, fetch_deliver env self url request_headers response_headers
                  response_writer response henabled hfind hs he hfail0 htimer⟩))))
            · have hu : self.update_date_headers_ = true := by
                by_contra hn
                exact htimer (fun h => absurd h hn)
              have ht : self.timer_ = none := by
                by_contra hn
                exact htimer (fun _ => hn)
              exact Or.inr (Or.inr (Or.inr (Or.inr (Or.inr
                ⟨⟨henabled, response, hfind, hs, he, hfail0, hu, ht⟩,
                 fetch_check_fails env self url request_headers response_headers
                   response_writer response henabled hfind hs he hfail0 hu ht⟩))))
  · exact Or.inl ⟨bool_eq_false_of_ne_true _ henabled,
      fetch_disabled env self url request_headers response_headers response_writer
        (bool_eq_false_of_ne_true _ henabled)⟩

theorem fetch_none_iff (env : Collaborators) (self : MockUrlFetcher) (url : String)
    (request_headers : RequestHeaders) (response_headers : ResponseHeaders)
    (response_writer : Writer) :
    StreamingFetchUrl env self url request_headers response_headers response_writer = none ↔
      StopsAtCheck env self url request_headers := by
  constructor
  · intro hnone
    rcases fetch_cases env self url request_headers response_headers response_writer with
      ⟨_, h⟩ | ⟨_, _, h⟩ | ⟨_, _, _, _, h⟩ | ⟨_, _, _, _, _, _, h⟩ | ⟨_, _, _, _, _, _, _, h⟩ |
      ⟨hstop, _⟩
    · rw [h] at hnone; cases hnone
    · rw [h] at hnone; cases hnone
    · rw [h] at hnone; cases hnone
    · rw [h] at hnone; cases hnone
    · rw [h] at hnone; cases hnone
    · exact hstop
  · rintro ⟨henabled, response, hfind, hs, he, hfail, hu, ht⟩
    exact fetch_check_fails env self url request_headers response_headers response_writer
      response henabled hfind hs he hfail hu ht

theorem fetch_some_frame (env : Collaborators) (self : MockUrlFetcher) (url : String)
    (request_headers : RequestHeaders) (response_headers : ResponseHeaders)
    (response_writer : Writer) (r : FetchResult)
    (hr : StreamingFetchUrl env self url request_headers response_headers response_writer
      = some r) :
    r.fetcher = self ∧ r.failures = signalledFailures env self url request_headers := by
  rcases fetch_cases env self url request_headers response_headers response_writer with
    ⟨hen, h⟩ | ⟨hen, hfind, h⟩ | ⟨_, hen, hfind, _, h⟩ | ⟨_, hen, hfind, _, _, _, h⟩ |
    ⟨_, hen, hfind, _, _, _, _, h⟩ | ⟨_, h⟩
  · rw [h] at hr; cases hr
    exact ⟨rfl, by simp [signalledFailures, hen]⟩
  · rw [h] at hr; cases hr
    exact ⟨rfl, by simp [signalledFailures, hen, hfind]⟩
  · rw [h] at hr; cases hr
    exact ⟨rfl, by simp [signalledFailures, hen, hfind]⟩
  · rw [h] at hr; cases hr
    exact ⟨rfl, by simp [signalledFailures, hen, hfind]⟩
  · rw [h] at hr; cases hr
    exact ⟨rfl, by simp [signalledFailures, hen, hfind]⟩
  · rw [h] at hr; cases hr

/-! ## Facts about the host check and about requests -/

theorem Lookup1_single (request_headers : RequestHeaders) (name v : String)
    (h : request_headers.valuesOf name = [v]) : request_headers.Lookup1 name = some v := by
  unfold RequestHeaders.Lookup1
  rw [h]

theorem Lookup1_not_single (request_headers : RequestHeaders) (name : String)
    (h : ∀ v, request_headers.valuesOf name ≠ [v]) : request_headers.Lookup1 name = none := by
  unfold RequestHeaders.Lookup1
  cases hv : request_headers.valuesOf name with
  | nil => rfl
  | cons a as =>
    cases as with
    | nil => exact absurd hv (h a)
    | cons b bs => rfl

theorem not_single_of_length (values : List String) (h : values.length ≠ 1) :
    ∀ v, values ≠ [v] := by
  intro v hv
  rw [hv] at h
  exact h rfl

theorem hostMismatch_mem_verifyHost (env : Collaborators) (self : MockUrlFetcher) (url : String)
    (request_headers : RequestHeaders) :
    (∃ e a, TestFailure.hostMismatch e a ∈ verifyHost env self url request_headers) ↔
      (self.verify_host_header_ = true ∧
        env.HostAndPort url ≠ (request_headers.Lookup1 HttpAttributes.kHost).getD "") := by
  unfold verifyHost EXPECT_STREQ
  cases hv : self.verify_host_header_
  · simp
  · by_cases hm : env.HostAndPort url = (request_headers.Lookup1 HttpAttributes.kHost).getD ""
    · simp [hm]
    · simp [hm]

theorem hostMismatch_mem_signalled (env : Collaborators) (self : MockUrlFetcher) (url : String)
    (request_headers : RequestHeaders) (henabled : self.enabled_ = true) :
    (∃ e a, TestFailure.hostMismatch e a ∈ signalledFailures env self url request_headers) ↔
      (self.verify_host_header_ = true ∧
        env.HostAndPort url ≠ (request_headers.Lookup1 HttpAttributes.kHost).getD "") := by
  rw [← hostMismatch_mem_verifyHost]
  unfold signalledFailures
  cases hfind : self.response_map_.find url with
  | some response => simp [henabled]
  | none =>
    cases hf : self.fail_on_unexpected_
    · simp [henabled]
    · simp [henabled]

theorem valuesOf_without (request_headers : RequestHeaders) (name other : String) :
    (request_headers.without name).valuesOf other =
      if other = name then [] else request_headers.valuesOf other := by
  unfold RequestHeaders.without RequestHeaders.valuesOf
  by_cases h : other = name
  · rw [if_pos h, List.filter_filter]
    have : (List.filter (fun a => decide (a.1 = other) && decide (a.1 ≠ name))
        request_headers.headers) = [] := by
      apply List.filter_eq_nil_iff.mpr
      intro a _
      rw [h]
      by_cases ha : a.1 = name <;> simp [ha]
    rw [this]
    rfl
  · rw [if_neg h, List.filter_filter]
    congr 1
    apply List.filter_congr
    intro a _
    by_cases ha : a.1 = other
    · have : a.1 ≠ name := fun hn => h (ha.symm.trans hn)
      simp [ha, this]
      exact fun hn => h hn
    · simp [ha]

theorem fetch_congr_request (env : Collaborators) (self : MockUrlFetcher) (url : String)
    (request_headers other_headers : RequestHeaders) (response_headers : ResponseHeaders)
    (response_writer : Writer)
    (hs : ∀ response, SinceRule env request_headers response ↔
      SinceRule env other_headers response)
    (he : ∀ response, EtagRule request_headers response ↔ EtagRule other_headers response)
    (hh : verifyHost env self url request_headers = verifyHost env self url other_headers) :
    StreamingFetchUrl env self url request_headers response_headers response_writer =
      StreamingFetchUrl env self url other_headers response_headers response_writer := by
  rcases fetch_cases env self url request_headers response_headers response_writer with
    ⟨hen, h⟩ | ⟨hen, hfind, h⟩ | ⟨response, hen, hfind, hrule, h⟩ |
    ⟨response, hen, hfind, hns, hne, hfail, h⟩ |
    ⟨response, hen, hfind, hns, hne, hfail, htimer, h⟩ |
    ⟨⟨hen, response, hfind, hns, hne, hfail, hu, ht⟩, h⟩
  · rw [h, fetch_disabled env self url other_headers response_headers response_writer hen]
  · rw [h, fetch_unset env self url other_headers response_headers response_writer hen hfind,
      hh]
  · rcases hrule with hrule | hrule
    · rw [h, fetch_since env self url other_headers response_headers response_writer response
        hen hfind ((hs response).mp hrule), hh]
    · rw [h, fetch_etag env self url other_headers response_headers response_writer response
        hen hfind ((he response).mp hrule), hh]
  · rw [h, fetch_fail_after_headers env self url other_headers response_headers response_writer
      response hen hfind (fun x => hns ((hs response).mpr x))
      (fun x => hne ((he response).mpr x)) hfail, hh]
  · rw [h, fetch_deliver env self url other_headers response_headers response_writer
      response hen hfind (fun x => hns ((hs response).mpr x))
      (fun x => hne ((he response).mpr x)) hfail htimer, hh]
  · rw [h, fetch_check_fails env self url other_headers response_headers response_writer
      response hen hfind (fun x => hns ((hs response).mpr x))
      (fun x => hne ((he response).mpr x)) hfail hu ht]

/-! ## The writer in a delivery -/

theorem writeBody_written_bodyChunks (self : MockUrlFetcher) (response : HttpResponse)
    (w : Writer) :
    (writeBody self response w).written = w.written ++ bodyChunks self response := by
  unfold bodyChunks
  rw [writeBody_written, writeBody_written]
  rfl

theorem writeBody_written_congr (self : MockUrlFetcher) (response : HttpResponse)
    (w other : Writer) (h : w.written = other.written) :
    (writeBody self response w).written = (writeBody self response other).written := by
  rw [writeBody_written_bodyChunks, writeBody_written_bodyChunks, h]

/-- Rule (a) fails exactly in the four ways an If-Modified-Since header can
fail: no single value, a value that does not parse, a time that is not
positive, or a time older than the stored last-modified time. -/
theorem not_SinceRule_iff (env : Collaborators) (request_headers : RequestHeaders)
    (response : HttpResponse) :
    ¬ SinceRule env request_headers response ↔
      ((∀ v, request_headers.valuesOf HttpAttributes.kIfModifiedSince ≠ [v]) ∨
        ∃ v, request_headers.valuesOf HttpAttributes.kIfModifiedSince = [v] ∧
          (env.ConvertStringToTime v = none ∨
            ∃ t, env.ConvertStringToTime v = some t ∧
              (t ≤ 0 ∨ t < response.last_modified_time))) := by
  constructor
  · intro hnot
    by_cases hone : ∃ v, request_headers.valuesOf HttpAttributes.kIfModifiedSince = [v]
    · obtain ⟨v, hv⟩ := hone
      refine Or.inr ⟨v, hv, ?_⟩
      cases hp : env.ConvertStringToTime v with
      | none => exact Or.inl rfl
      | some t =>
        refine Or.inr ⟨t, rfl, ?_⟩
        by_contra hc
        have hpos : 0 < t := by
          by_contra hn
          exact hc (Or.inl (not_lt.mp hn))
        have hnew : response.last_modified_time ≤ t := by
          by_contra hn
          exact hc (Or.inr (not_le.mp hn))
        exact hnot ⟨v, t, hv, hp, hpos, hnew⟩
    · exact Or.inl (fun v hv => hone ⟨v, hv⟩)
  · rintro (hnone | ⟨v, hv, hbad⟩) ⟨w, t, hw, hp, hpos, hnew⟩
    · exact hnone w hw
    · rw [hv] at hw
      cases hw
      rcases hbad with hbad | ⟨s, hs, hbad⟩
      · rw [hbad] at hp
        cases hp
      · rw [hs] at hp
        cases hp
        rcases hbad with hbad | hbad
        · exact absurd hpos (not_lt.mpr hbad)
        · exact absurd hnew (not_le.mpr hbad)

/-! ## The claims -/

/-- C1, as amended.  After `SetResponse(url, headers, body)` with headers of
status 200, a fetch of `url` with `enabled_`, without `fail_after_headers_`,
`split_writes_` and `omit_empty_writes_`, with a timer whenever
`update_date_headers_` is on, and with a request that carries neither
If-Modified-Since nor If-None-Match, returns true; the output headers have
status 200 and are the registered headers with the caching metadata recomputed
(and with the `Date` header set from the timer when `update_date_headers_` is
on); the writer is invoked exactly once, with the registered body. -/
theorem C1_set_then_fetch (env : Collaborators) (self : MockUrlFetcher) (url : String)
    (response_header : ResponseHeaders) (response_body : Body)
    (request_headers : RequestHeaders) (response_headers : ResponseHeaders)
    (response_writer : Writer)
    (hstatus : response_header.status_code = 200)
    (henabled : self.enabled_ = true) (hfail : self.fail_after_headers_ = false)
    (hsplit : self.split_writes_ = false) (homit : self.omit_empty_writes_ = false)
    (htimer : self.update_date_headers_ = true → self.timer_ ≠ none)
    (hsince : request_headers.valuesOf HttpAttributes.kIfModifiedSince = [])
    (_hmatch : request_headers.valuesOf HttpAttributes.kIfNoneMatch = []) :
    ∃ r, StreamingFetchUrl env (self.SetResponse url response_header response_body) url
          request_headers response_headers response_writer = some r ∧
      r.ret = true ∧
      r.response_headers.status_code = 200 ∧
      r.response_headers =
        (if self.update_date_headers_ = true then
           response_header.SetDate env (self.timer_.getD 0)
         else response_header).ComputeCaching ∧
      (self.update_date_headers_ = false →
        r.response_headers.headers = response_header.headers ∧
        r.response_headers.reason_phrase = response_header.reason_phrase) ∧
      r.response_writer.written = response_writer.written ++ [response_body.val] := by
  have htog := toggles_SetConditionalResponse self url 0 "" response_header response_body
  have hfind := find_SetConditionalResponse self url 0 "" response_header response_body url
  rw [if_pos rfl] at hfind
  have hs : ¬ SinceRule env request_headers (HttpResponse.new 0 "" response_header response_body) := by
    rintro ⟨v, t, hv, _⟩
    rw [hsince] at hv
    exact absurd hv (by simp)
  have he : ¬ EtagRule request_headers (HttpResponse.new 0 "" response_header response_body) := by
    rintro ⟨hne, _⟩
    exact hne rfl
  have hfetch := fetch_deliver env (self.SetResponse url response_header response_body) url
    request_headers response_headers response_writer _
    (by unfold SetResponse; rw [htog]; exact henabled) hfind hs he
    (by unfold SetResponse; rw [htog]; exact hfail)
    (by unfold SetResponse; rw [htog]; exact htimer)
  refine ⟨_, hfetch, rfl, ?_, ?_, ?_, ?_⟩
  · unfold deliveredHeaders SetResponse
    rw [htog]
    by_cases hu : self.update_date_headers_ = true
    · simp [hu, HttpResponse.new, ResponseHeaders.ComputeCaching, ResponseHeaders.SetDate, hstatus]
    · simp [hu, HttpResponse.new, ResponseHeaders.ComputeCaching, hstatus]
  · unfold deliveredHeaders SetResponse
    rw [htog]
    rfl
  · intro hu
    unfold deliveredHeaders SetResponse
    rw [htog]
    simp [hu, HttpResponse.new, ResponseHeaders.ComputeCaching]
  · have hw := writeBody_not_split (self.SetResponse url response_header response_body)
      (HttpResponse.new 0 "" response_header response_body) response_writer
      (by unfold SetResponse; rw [htog]; exact hsplit)
      (Or.inl (by unfold SetResponse; rw [htog]; exact homit))
    exact hw

/-- C1, witness: the scenario of the specification, "hello" registered for
http://x/a and fetched with no request headers. -/
theorem C1_set_then_fetch_witness :
    ∃ r, StreamingFetchUrl exampleEnv (emptyFetcher.SetResponse "http://x/a" okHeaders helloBody)
          "http://x/a" noHeaders blankHeaders freshWriter = some r ∧
      r.ret = true ∧
      r.response_headers.status_code = 200 ∧
      r.response_headers =
        (if emptyFetcher.update_date_headers_ = true then
           okHeaders.SetDate exampleEnv (emptyFetcher.timer_.getD 0)
         else okHeaders).ComputeCaching ∧
      (emptyFetcher.update_date_headers_ = false →
        r.response_headers.headers = okHeaders.headers ∧
        r.response_headers.reason_phrase = okHeaders.reason_phrase) ∧
      r.response_writer.written = freshWriter.written ++ [helloBody.val] :=
  C1_set_then_fetch exampleEnv emptyFetcher "http://x/a" okHeaders helloBody noHeaders
    blankHeaders freshWriter (by decide) rfl rfl rfl rfl (by decide) (by decide) (by decide)

/-- C1, counterexample.  The claim names neither `update_date_headers_` nor the
timer.  With `update_date_headers_` on and no timer the fetch of the first
scenario stops at `CHECK(timer_ != NULL)`: it does not return true and the
writer is not invoked.  With `update_date_headers_` on and a timer the output
headers are not a copy of the registered ones: a `Date` header is added. -/
theorem C1_counterexample :
    (StreamingFetchUrl exampleEnv datedNoTimerFetcher "http://x/a" noHeaders blankHeaders
        freshWriter).isNone = true ∧
    (StreamingFetchUrl exampleEnv datedFetcher "http://x/a" noHeaders blankHeaders
        freshWriter).map (fun r => r.response_headers.headers) =
      some [("Content-Type", "text/plain"), ("Date", "5000")] ∧
    okHeaders.headers = [("Content-Type", "text/plain")] := by
  refine ⟨?_, ?_, ?_⟩ <;> decide

/-- C2.  With `enabled_`, for a registered url and any setting of the other
toggles: when the request carries exactly one If-Modified-Since value, the
value parses to a time `t`, `0 < t` and `t` is at least the stored
last-modified time (equality included), the fetch sets the output status to
304 Not Modified and changes nothing else of the output headers, does not
invoke the writer, and returns the stored success flag, true or false. -/
theorem C2_if_modified_since (env : Collaborators) (self : MockUrlFetcher) (url : String)
    (request_headers : RequestHeaders) (response_headers : ResponseHeaders)
    (response_writer : Writer) (response : HttpResponse) (v : String) (t : Int)
    (henabled : self.enabled_ = true)
    (hfind : self.response_map_.find url = some response)
    (hone : request_headers.valuesOf HttpAttributes.kIfModifiedSince = [v])
    (hparse : env.ConvertStringToTime v = some t)
    (hpos : 0 < t) (hnew : response.last_modified_time ≤ t) :
    ∃ r, StreamingFetchUrl env self url request_headers response_headers response_writer
          = some r ∧
      r.response_headers.status_code = 304 ∧
      r.response_headers = response_headers.SetStatusAndReason HttpStatus.kNotModified ∧
      r.response_writer = response_writer ∧
      r.ret = response.success :=
  ⟨_, fetch_since env self url request_headers response_headers response_writer response
        henabled hfind ⟨v, t, hone, hparse, hpos, hnew⟩, rfl, rfl, rfl, rfl⟩

/-- C2, witness: the second scenario of the specification: last-modified time
1000, `If-Modified-Since: 2000`. -/
theorem C2_if_modified_since_witness :
    ∃ r, StreamingFetchUrl exampleEnv conditionalFetcher "http://x/b" sinceRequest blankHeaders
          freshWriter = some r ∧
      r.response_headers.status_code = 304 ∧
      r.response_headers = blankHeaders.SetStatusAndReason HttpStatus.kNotModified ∧
      r.response_writer = freshWriter ∧
      r.ret = (HttpResponse.new 1000 "" okHeaders bodyBody).success :=
  C2_if_modified_since exampleEnv conditionalFetcher "http://x/b" sinceRequest blankHeaders
    freshWriter (HttpResponse.new 1000 "" okHeaders bodyBody) "2000" 2000 rfl (by decide)
    (by decide) (by decide) (by decide) (by decide)

/-- C3, as amended.  With `enabled_`, for a registered url: (i) when the stored
etag is not empty and the request carries exactly one If-None-Match value, equal
to it, the fetch sets the output status to 304, changes nothing else of the
output headers and does not invoke the writer; (ii) when the stored etag is
empty and rule (a) does not hold, then whatever If-None-Match values the request
carries the fetch takes the normal delivery: with `fail_after_headers_` the
output headers are the stored headers and the writer is not invoked; without it,
and with a timer whenever `update_date_headers_` is on, the output headers are
the stored headers (with `Date` set when `update_date_headers_` is on, caching
metadata recomputed, the stored status) and the chunks written add up to the
stored body. -/
theorem C3_if_none_match (env : Collaborators) (self : MockUrlFetcher) (url : String)
    (request_headers : RequestHeaders) (response_headers : ResponseHeaders)
    (response_writer : Writer) (response : HttpResponse)
    (henabled : self.enabled_ = true)
    (hfind : self.response_map_.find url = some response) :
    (response.etag ≠ "" →
      request_headers.valuesOf HttpAttributes.kIfNoneMatch = [response.etag] →
      ∃ r, StreamingFetchUrl env self url request_headers response_headers response_writer
            = some r ∧
        r.response_headers.status_code = 304 ∧
        r.response_headers = response_headers.SetStatusAndReason HttpStatus.kNotModified ∧
        r.response_writer = response_writer) ∧
    (response.etag = "" → ¬ SinceRule env request_headers response →
      (self.fail_after_headers_ = true →
        ∃ r, StreamingFetchUrl env self url request_headers response_headers response_writer
              = some r ∧
          r.response_headers = response.header ∧
          r.response_writer = response_writer) ∧
      (self.fail_after_headers_ = false →
        (self.update_date_headers_ = true → self.timer_ ≠ none) →
        ∃ r chunks,
          StreamingFetchUrl env self url request_headers response_headers response_writer
              = some r ∧
          r.response_headers = deliveredHeaders env self response ∧
          r.response_headers.status_code = response.header.status_code ∧
          r.response_writer.written = response_writer.written ++ chunks ∧
          chunks.flatten = response.body.val)) := by
  refine ⟨fun hne hone => ?_, fun hempty hsince => ⟨fun hfail => ?_, fun hfail htimer => ?_⟩⟩
  · exact ⟨_, fetch_etag env self url request_headers response_headers response_writer response
      henabled hfind ⟨hne, hone⟩, rfl, rfl, rfl⟩
  · have he := not_EtagRule_of_empty request_headers response hempty
    exact ⟨_, fetch_fail_after_headers env self url request_headers response_headers
      response_writer response henabled hfind hsince he hfail, rfl, rfl⟩
  · have he := not_EtagRule_of_empty request_headers response hempty
    obtain ⟨chunks, hw, hflat, _, _⟩ := writeBody_chunks self response response_writer
    refine ⟨_, chunks, fetch_deliver env self url request_headers response_headers
      response_writer response henabled hfind hsince he hfail htimer, rfl, ?_, hw, hflat⟩
    unfold deliveredHeaders
    split_ifs <;> rfl

/-- C3, witness: (i) "hello" stored under the etag "v1" and requested with
`If-None-Match: v1` is answered by 304 without a write; (ii) "hello" stored
without an etag and requested with an empty If-None-Match value is delivered. -/
theorem C3_if_none_match_witness :
    (∃ r, StreamingFetchUrl exampleEnv etagFetcher "http://x/a" matchRequest blankHeaders
          freshWriter = some r ∧
      r.response_headers.status_code = 304 ∧
      r.response_headers = blankHeaders.SetStatusAndReason HttpStatus.kNotModified ∧
      r.response_writer = freshWriter) ∧
    (∃ r chunks,
      StreamingFetchUrl exampleEnv helloFetcher "http://x/a" emptyMatchRequest blankHeaders
          freshWriter = some r ∧
      r.response_headers = deliveredHeaders exampleEnv helloFetcher
          (HttpResponse.new 0 "" okHeaders helloBody) ∧
      r.response_headers.status_code =
        (HttpResponse.new 0 "" okHeaders helloBody).header.status_code ∧
      r.response_writer.written = freshWriter.written ++ chunks ∧
      chunks.flatten = (HttpResponse.new 0 "" okHeaders helloBody).body.val) :=
  ⟨(C3_if_none_match exampleEnv etagFetcher "http://x/a" matchRequest blankHeaders
      freshWriter (HttpResponse.new 1000 "v1" okHeaders helloBody) rfl (by decide)).1
      (by decide) (by decide),
   ((C3_if_none_match exampleEnv helloFetcher "http://x/a" emptyMatchRequest blankHeaders
      freshWriter (HttpResponse.new 0 "" okHeaders helloBody) rfl (by decide)).2 rfl
      (not_SinceRule_of_absent _ _ _ (by decide))).2 rfl (by decide)⟩

/-- C3, counterexample to part (ii).  The stored etag is empty, the request
carries an empty If-None-Match value and no If-Modified-Since.  With
`fail_after_headers_` the stored headers are copied but the body "hello" is not
written; with `update_date_headers_` on and no timer the fetch stops at
`CHECK(timer_ != NULL)`. -/
theorem C3_counterexample :
    (StreamingFetchUrl exampleEnv failAfterFetcher "http://x/a" emptyMatchRequest blankHeaders
        freshWriter).map (fun r => (r.response_headers, r.response_writer.written)) =
      some (okHeaders, []) ∧
    (StreamingFetchUrl exampleEnv datedNoTimerFetcher "http://x/a" emptyMatchRequest
        blankHeaders freshWriter).isNone = true := by
  refine ⟨?_, ?_⟩ <;> decide

/-- C4.  With `enabled_`, for a registered url with a non-empty stored etag:
when the request carries exactly one If-Modified-Since value that parses to a
positive time at least the stored last-modified time, and exactly one
If-None-Match value that differs from the stored etag, the fetch serves 304 and
does not invoke the writer. -/
theorem C4_since_before_etag (env : Collaborators) (self : MockUrlFetcher) (url : String)
    (request_headers : RequestHeaders) (response_headers : ResponseHeaders)
    (response_writer : Writer) (response : HttpResponse) (v w : String) (t : Int)
    (henabled : self.enabled_ = true)
    (hfind : self.response_map_.find url = some response)
    (_hetag : response.etag ≠ "")
    (hone : request_headers.valuesOf HttpAttributes.kIfModifiedSince = [v])
    (hparse : env.ConvertStringToTime v = some t)
    (hpos : 0 < t) (hnew : response.last_modified_time ≤ t)
    (_hmatch : request_headers.valuesOf HttpAttributes.kIfNoneMatch = [w])
    (_hdiffer : w ≠ response.etag) :
    ∃ r, StreamingFetchUrl env self url request_headers response_headers response_writer
          = some r ∧
      r.response_headers.status_code = 304 ∧
      r.response_headers = response_headers.SetStatusAndReason HttpStatus.kNotModified ∧
      r.response_writer = response_writer :=
  ⟨_, fetch_since env self url request_headers response_headers response_writer response
        henabled hfind ⟨v, t, hone, hparse, hpos, hnew⟩, rfl, rfl, rfl⟩

/-- C4, witness: etag "v1" and last-modified time 1000 stored; the request
carries `If-Modified-Since: 2000` and `If-None-Match: v2`. -/
theorem C4_since_before_etag_witness :
    ∃ r, StreamingFetchUrl exampleEnv etagFetcher "http://x/a" sinceAndOtherMatchRequest
          blankHeaders freshWriter = some r ∧
      r.response_headers.status_code = 304 ∧
      r.response_headers = blankHeaders.SetStatusAndReason HttpStatus.kNotModified ∧
      r.response_writer = freshWriter :=
  C4_since_before_etag exampleEnv etagFetcher "http://x/a" sinceAndOtherMatchRequest
    blankHeaders freshWriter (HttpResponse.new 1000 "v1" okHeaders helloBody) "2000" "v2" 2000
    rfl (by decide) (by decide) (by decide) (by decide) (by decide) (by decide) (by decide)
    (by decide)

/-- C5, as amended.  With `enabled_`, for a registered url and every setting of
the toggles and every request: when rule (a) or rule (b) holds (a 304 is
served), or when `fail_after_headers_` is off and a timer is there whenever
`update_date_headers_` is on, the fetch returns the stored success flag; in the
normal delivery with `fail_after_headers_` on it returns false, whatever the
stored success flag. -/
theorem C5_return_value (env : Collaborators) (self : MockUrlFetcher) (url : String)
    (request_headers : RequestHeaders) (response_headers : ResponseHeaders)
    (response_writer : Writer) (response : HttpResponse)
    (henabled : self.enabled_ = true)
    (hfind : self.response_map_.find url = some response) :
    ((SinceRule env request_headers response ∨ EtagRule request_headers response ∨
        (self.fail_after_headers_ = false ∧
          (self.update_date_headers_ = true → self.timer_ ≠ none))) →
      ∃ r, StreamingFetchUrl env self url request_headers response_headers response_writer
            = some r ∧ r.ret = response.success) ∧
    (¬ SinceRule env request_headers response → ¬ EtagRule request_headers response →
      self.fail_after_headers_ = true →
      ∃ r, StreamingFetchUrl env self url request_headers response_headers response_writer
            = some r ∧ r.ret = false) := by
  constructor
  · intro h
    by_cases hs : SinceRule env request_headers response
    · exact ⟨_, fetch_since env self url request_headers response_headers response_writer
        response henabled hfind hs, rfl⟩
    · by_cases he : EtagRule request_headers response
      · exact ⟨_, fetch_etag env self url request_headers response_headers response_writer
          response henabled hfind he, rfl⟩
      · rcases h with h | h | ⟨hfail, htimer⟩
        · exact absurd h hs
        · exact absurd h he
        · exact ⟨_, fetch_deliver env self url request_headers response_headers
            response_writer response henabled hfind hs he hfail htimer, rfl⟩
  · intro hs he hfail
    exact ⟨_, fetch_fail_after_headers env self url request_headers response_headers
      response_writer response henabled hfind hs he hfail, rfl⟩

/-- C5, witness: the second scenario, served 304, returns the stored flag. -/
theorem C5_return_value_witness :
    ∃ r, StreamingFetchUrl exampleEnv conditionalFetcher "http://x/b" sinceRequest blankHeaders
          freshWriter = some r ∧
      r.ret = (HttpResponse.new 1000 "" okHeaders bodyBody).success :=
  (C5_return_value exampleEnv conditionalFetcher "http://x/b" sinceRequest blankHeaders
    freshWriter (HttpResponse.new 1000 "" okHeaders bodyBody) rfl (by decide)).1
    (Or.inl ⟨"2000", 2000, by decide, by decide, by decide, by decide⟩)

/-- C5, counterexample.  "hello" is stored with the success flag true; with
`fail_after_headers_` on the fetch returns false, not the stored flag; with
`update_date_headers_` on and no timer the fetch returns nothing: it stops at
`CHECK(timer_ != NULL)`. -/
theorem C5_counterexample :
    (failAfterFetcher.response_map_.find "http://x/a").map (fun response => response.success) =
      some true ∧
    (StreamingFetchUrl exampleEnv failAfterFetcher "http://x/a" noHeaders blankHeaders
        freshWriter).map (fun r => r.ret) = some false ∧
    (StreamingFetchUrl exampleEnv datedNoTimerFetcher "http://x/a" noHeaders blankHeaders
        freshWriter).isNone = true := by
  refine ⟨?_, ?_, ?_⟩ <;> decide

/-- C6.  With `enabled_` and `fail_after_headers_`, for a registered url whose
fetch reaches the normal delivery (neither rule (a) nor rule (b) holds): the
output headers are exactly the stored headers, whatever `update_date_headers_`
and the timer are, the fetch returns false, whatever the stored success flag,
and the writer is not invoked. -/
theorem C6_fail_after_headers (env : Collaborators) (self : MockUrlFetcher) (url : String)
    (request_headers : RequestHeaders) (response_headers : ResponseHeaders)
    (response_writer : Writer) (response : HttpResponse)
    (henabled : self.enabled_ = true)
    (hfail : self.fail_after_headers_ = true)
    (hfind : self.response_map_.find url = some response)
    (hsince : ¬ SinceRule env request_headers response)
    (hetag : ¬ EtagRule request_headers response) :
    ∃ r, StreamingFetchUrl env self url request_headers response_headers response_writer
          = some r ∧
      r.response_headers = response.header ∧
      r.ret = false ∧
      r.response_writer = response_writer :=
  ⟨_, fetch_fail_after_headers env self url request_headers response_headers response_writer
        response henabled hfind hsince hetag hfail, rfl, rfl, rfl⟩

/-- C6, witness: "hello" stored with the success flag true, fetched with
`fail_after_headers_`, `update_date_headers_` and a timer. -/
theorem C6_fail_after_headers_witness :
    ∃ r, StreamingFetchUrl exampleEnv failAfterDatedFetcher "http://x/a" noHeaders blankHeaders
          freshWriter = some r ∧
      r.response_headers = (HttpResponse.new 0 "" okHeaders helloBody).header ∧
      r.ret = false ∧
      r.response_writer = freshWriter :=
  C6_fail_after_headers exampleEnv failAfterDatedFetcher "http://x/a" noHeaders blankHeaders
    freshWriter (HttpResponse.new 0 "" okHeaders helloBody) rfl rfl (by decide)
    (not_SinceRule_of_absent _ _ _ (by decide)) (not_EtagRule_of_absent _ _ (by decide))

/-- C7, as amended.  With `enabled_` and `split_writes_`, in a normal delivery
(neither rule (a) nor rule (b) holds) that is not cut short
(`fail_after_headers_` off, a timer whenever `update_date_headers_` is on), for
a stored body of `N < 2^32` bytes: when `omit_empty_writes_` is off or `N ≥ 2`
the writer is invoked exactly twice, first with the bytes before position
`N / 2`, then with the bytes from position `N / 2` on, and the two add up to
the body; with `omit_empty_writes_` on, a body of one byte is written in one
invocation and an empty body in none. -/
theorem C7_split_writes (env : Collaborators) (self : MockUrlFetcher) (url : String)
    (request_headers : RequestHeaders) (response_headers : ResponseHeaders)
    (response_writer : Writer) (response : HttpResponse)
    (henabled : self.enabled_ = true)
    (hfind : self.response_map_.find url = some response)
    (hsince : ¬ SinceRule env request_headers response)
    (hetag : ¬ EtagRule request_headers response)
    (hfail : self.fail_after_headers_ = false)
    (htimer : self.update_date_headers_ = true → self.timer_ ≠ none)
    (hsplit : self.split_writes_ = true)
    (hsize : response.body.val.length < 4294967296) :
    ∃ r, StreamingFetchUrl env self url request_headers response_headers response_writer
          = some r ∧
      ((self.omit_empty_writes_ = false ∨ 2 ≤ response.body.val.length) →
        r.response_writer.written =
          response_writer.written ++
            [response.body.val.take (response.body.val.length / 2),
             response.body.val.drop (response.body.val.length / 2)]) ∧
      (self.omit_empty_writes_ = true ∧ response.body.val.length = 1 →
        r.response_writer.written = response_writer.written ++ [response.body.val]) ∧
      (self.omit_empty_writes_ = true ∧ response.body.val.length = 0 →
        r.response_writer.written = response_writer.written) ∧
      response.body.val.take (response.body.val.length / 2) ++
        response.body.val.drop (response.body.val.length / 2) = response.body.val := by
  have hw := writeBody_split_small self response response_writer hsplit hsize
  refine ⟨_, fetch_deliver env self url request_headers response_headers response_writer
    response henabled hfind hsince hetag hfail htimer, ?_, ?_, ?_, List.take_append_drop _ _⟩
  · intro h
    show (writeBody self response response_writer).written = _
    rw [hw, if_neg, if_neg]
    · rintro ⟨ho, hn⟩
      rcases h with h | h
      · rw [h] at ho; exact absurd ho (by decide)
      · omega
    · rintro ⟨ho, hn⟩
      rcases h with h | h
      · rw [h] at ho; exact absurd ho (by decide)
      · omega
  · intro h
    show (writeBody self response response_writer).written = _
    rw [hw, if_neg, if_pos h]
    rintro ⟨_, hn⟩
    omega
  · intro h
    show (writeBody self response response_writer).written = _
    rw [hw, if_pos h, List.append_nil]

/-- C7, witness: "hello" is written as "he" and "llo". -/
theorem C7_split_writes_witness :
    ∃ r, StreamingFetchUrl exampleEnv splitFetcher "http://x/a" noHeaders blankHeaders
          freshWriter = some r ∧
      r.response_writer.written = [[104, 101], [108, 108, 111]] := by
  obtain ⟨r, hr, h2, _, _, _⟩ := C7_split_writes exampleEnv splitFetcher "http://x/a" noHeaders
    blankHeaders freshWriter (HttpResponse.new 0 "" okHeaders helloBody) rfl (by decide)
    (not_SinceRule_of_absent _ _ _ (by decide)) (not_EtagRule_of_absent _ _ (by decide))
    rfl (by decide) rfl (by decide)
  exact ⟨r, hr, h2 (Or.inl rfl)⟩

/-- C7, counterexample.  With `split_writes_` and `omit_empty_writes_` a body
of one byte is written in one invocation, not two, although its length is not
0.  With `fail_after_headers_` the body "hello" is not written at all, and with
`update_date_headers_` on and no timer the fetch stops at
`CHECK(timer_ != NULL)` before any write.  For a body of 2^32 bytes `int mid`
wraps to a negative number: the first write gets the whole body and the second
an empty chunk, not the halves. -/
theorem C7_counterexample :
    (StreamingFetchUrl exampleEnv splitOneByteFetcher "http://x/a" noHeaders blankHeaders
        freshWriter).map (fun r => r.response_writer.written) = some [[120]] ∧
    (StreamingFetchUrl exampleEnv splitFailAfterFetcher "http://x/a" noHeaders blankHeaders
        freshWriter).map (fun r => r.response_writer.written) = some [] ∧
    (StreamingFetchUrl exampleEnv splitNoTimerFetcher "http://x/a" noHeaders blankHeaders
        freshWriter).isNone = true ∧
    (hugeBody.val.length = 4294967296 ∧
      (StreamingFetchUrl exampleEnv hugeSplitFetcher "http://x/a" noHeaders blankHeaders
        freshWriter).map (fun r => r.response_writer.written) = some [hugeBody.val, []]) := by
  refine ⟨?_, ?_, ?_, hugeBody_length, hugeBody_written⟩ <;> decide

/-- C8, as amended.  With `enabled_`, for a url without an entry in the store
and every request: the fetch returns false, leaves the output headers as they
were and does not invoke the writer; the failure for the unset url is recorded
if and only if `fail_on_unexpected_` is on; the only other failure that can be
recorded is the one of the host check, so with `verify_host_header_` off a
failure is recorded if and only if `fail_on_unexpected_` is on. -/
theorem C8_unset_url (env : Collaborators) (self : MockUrlFetcher) (url : String)
    (request_headers : RequestHeaders) (response_headers : ResponseHeaders)
    (response_writer : Writer)
    (henabled : self.enabled_ = true)
    (hfind : self.response_map_.find url = none) :
    ∃ r, StreamingFetchUrl env self url request_headers response_headers response_writer
          = some r ∧
      r.ret = false ∧
      r.response_headers = response_headers ∧
      r.response_writer = response_writer ∧
      (TestFailure.unsetUrl url ∈ r.failures ↔ self.fail_on_unexpected_ = true) ∧
      r.failures = verifyHost env self url request_headers ++
        (if self.fail_on_unexpected_ = true then [TestFailure.unsetUrl url] else []) ∧
      (self.verify_host_header_ = false →
        (r.failures ≠ [] ↔ self.fail_on_unexpected_ = true)) := by
  have hhost : TestFailure.unsetUrl url ∉ verifyHost env self url request_headers := by
    unfold verifyHost EXPECT_STREQ
    split_ifs <;> simp
  refine ⟨_, fetch_unset env self url request_headers response_headers response_writer
    henabled hfind, rfl, rfl, rfl, ?_, ?_, ?_⟩
  · cases hf : self.fail_on_unexpected_
    · simpa using hhost
    · simp
  · cases hf : self.fail_on_unexpected_ <;> simp
  · intro hv
    cases hf : self.fail_on_unexpected_ <;> simp [verifyHost, hv]

/-- C8, witness: a fetch of http://x/a from an empty store with
`fail_on_unexpected_` on. -/
theorem C8_unset_url_witness :
    ∃ r, StreamingFetchUrl exampleEnv strictFetcher "http://x/a" noHeaders blankHeaders
          freshWriter = some r ∧
      r.ret = false ∧
      r.response_headers = blankHeaders ∧
      r.response_writer = freshWriter ∧
      (TestFailure.unsetUrl "http://x/a" ∈ r.failures ↔ strictFetcher.fail_on_unexpected_ = true) ∧
      r.failures = verifyHost exampleEnv strictFetcher "http://x/a" noHeaders ++
        (if strictFetcher.fail_on_unexpected_ = true then [TestFailure.unsetUrl "http://x/a"]
         else []) ∧
      (strictFetcher.verify_host_header_ = false →
        (r.failures ≠ [] ↔ strictFetcher.fail_on_unexpected_ = true)) :=
  C8_unset_url exampleEnv strictFetcher "http://x/a" noHeaders blankHeaders freshWriter rfl rfl

/-- C8, counterexample.  The store is empty, `fail_on_unexpected_` is off and
`verify_host_header_` is on; the request for http://x/a carries `Host: y`.  The
host check records a test failure although `fail_on_unexpected_` is off. -/
theorem C8_counterexample :
    verifyingFetcher.fail_on_unexpected_ = false ∧
    verifyingFetcher.response_map_.find "http://x/a" = none ∧
    (StreamingFetchUrl exampleEnv verifyingFetcher "http://x/a" otherHostRequest blankHeaders
        freshWriter).map (fun r => r.failures) = some [TestFailure.hostMismatch "x" "y"] := by
  refine ⟨?_, ?_, ?_⟩ <;> decide

/-- C9.  With `enabled_` off, for every url, request and setting of the other
toggles, the fetch returns false, leaves the output headers and the writer as
they were, records no test failure and leaves the fetcher, its store included,
as it was. -/
theorem C9_disabled (env : Collaborators) (self : MockUrlFetcher) (url : String)
    (request_headers : RequestHeaders) (response_headers : ResponseHeaders)
    (response_writer : Writer)
    (hdisabled : self.enabled_ = false) :
    ∃ r, StreamingFetchUrl env self url request_headers response_headers response_writer
          = some r ∧
      r.ret = false ∧
      r.response_headers = response_headers ∧
      r.response_writer = response_writer ∧
      r.failures = [] ∧
      r.fetcher = self :=
  ⟨_, fetch_disabled env self url request_headers response_headers response_writer hdisabled,
    rfl, rfl, rfl, rfl, rfl⟩

/-- C9, witness: a disabled fetcher with `verify_host_header_` and
`fail_on_unexpected_` on, asked for an unregistered url with a `Host` header
that does not match. -/
theorem C9_disabled_witness :
    ∃ r, StreamingFetchUrl exampleEnv disabledFetcher "http://x/b" otherHostRequest blankHeaders
          freshWriter = some r ∧
      r.ret = false ∧
      r.response_headers = blankHeaders ∧
      r.response_writer = freshWriter ∧
      r.failures = [] ∧
      r.fetcher = disabledFetcher :=
  C9_disabled exampleEnv disabledFetcher "http://x/b" otherHostRequest blankHeaders freshWriter
    rfl

/-- C10, as amended.  For a registered url, every setting of the toggles and
every request: `SetResponseFailure(url)` succeeds and changes only the success
flag of the entry of `url` (last-modified time, etag, headers and body of that
entry, every other entry and every toggle stay as they were); whenever the
fetch of `url` returns before the change, the same fetch after the change
returns false, with the same output headers, the same writer and the same test
failures; and when the fetch stops at `CHECK(timer_ != NULL)` before the
change, it does so after the change as well. -/
theorem C10_set_response_failure (env : Collaborators) (self : MockUrlFetcher) (url : String)
    (request_headers : RequestHeaders) (response_headers : ResponseHeaders)
    (response_writer : Writer) (response : HttpResponse)
    (hfind : self.response_map_.find url = some response) :
    ∃ failed, self.SetResponseFailure url = some failed ∧
      failed.response_map_.find url = some { response with success := false } ∧
      (∀ u, u ≠ url → failed.response_map_.find u = self.response_map_.find u) ∧
      failed = { self with response_map_ := failed.response_map_ } ∧
      (∀ r, StreamingFetchUrl env self url request_headers response_headers response_writer
            = some r →
        StreamingFetchUrl env failed url request_headers response_headers response_writer
            = some { r with ret := false, fetcher := failed }) ∧
      (StreamingFetchUrl env self url request_headers response_headers response_writer = none →
        StreamingFetchUrl env failed url request_headers response_headers response_writer
            = none) := by
  have hm : (self.response_map_.assign url (response.set_success false)).find url =
      some (response.set_success false) := by
    simp [ResponseMap.assign]
  have hfetch := fetch_after_set_success env self _ url request_headers response_headers
    response_writer response hfind hm
  refine ⟨_, SetResponseFailure_eq self url response hfind, hm, ?_, rfl, hfetch.1, hfetch.2⟩
  intro u hu
  simp [ResponseMap.assign, hu]

/-- C10, witness: the first scenario; after `SetResponseFailure` the fetch
still delivers the headers and "hello" and returns false. -/
theorem C10_set_response_failure_witness :
    ∃ failed, helloFetcher.SetResponseFailure "http://x/a" = some failed ∧
      (StreamingFetchUrl exampleEnv failed "http://x/a" noHeaders blankHeaders freshWriter).map
          (fun r => (r.ret, r.response_headers, r.response_writer.written)) =
        some (false, okHeaders.ComputeCaching, [helloBody.val]) := by
  obtain ⟨failed, hset, _, _, _, hfetch, _⟩ := C10_set_response_failure exampleEnv helloFetcher
    "http://x/a" noHeaders blankHeaders freshWriter (HttpResponse.new 0 "" okHeaders helloBody)
    (by decide)
  have hbefore := fetch_deliver exampleEnv helloFetcher "http://x/a" noHeaders blankHeaders
    freshWriter (HttpResponse.new 0 "" okHeaders helloBody) rfl (by decide)
    (not_SinceRule_of_absent _ _ _ (by decide)) (not_EtagRule_of_absent _ _ (by decide)) rfl
    (by decide)
  refine ⟨failed, hset, ?_⟩
  rw [hfetch _ hbefore]
  rfl

/-- C10, counterexample.  With `update_date_headers_` on and no timer, the
fetch issued after `SetResponseFailure` does not return false: it stops at
`CHECK(timer_ != NULL)`. -/
theorem C10_counterexample :
    ((datedNoTimerFetcher.SetResponseFailure "http://x/a").map
        (fun failed => (StreamingFetchUrl exampleEnv failed "http://x/a" noHeaders blankHeaders
            freshWriter).isNone)) = some true := by
  decide

/-- C11.  For every fetcher and url, after `SetConditionalResponse(url,
last_modified_time, etag, headers, body)` the store holds for `url` the one
entry made of these values with the success flag true, whatever entry `url`
had before (none, one marked as failure, one extended by `AddToResponse`);
the entries of all other urls and the toggles are unchanged. -/
theorem C11_set_conditional_response (self : MockUrlFetcher) (url : String)
    (last_modified_time : Int) (etag : String) (response_header : ResponseHeaders)
    (response_body : Body) :
    (self.SetConditionalResponse url last_modified_time etag response_header
        response_body).response_map_.find url =
      some { last_modified_time := last_modified_time, etag := etag, header := response_header,
             body := response_body, success := true } ∧
    (∀ u, u ≠ url →
      (self.SetConditionalResponse url last_modified_time etag response_header
          response_body).response_map_.find u = self.response_map_.find u) ∧
    self.SetConditionalResponse url last_modified_time etag response_header response_body =
      { self with response_map_ :=
          (self.SetConditionalResponse url last_modified_time etag response_header
            response_body).response_map_ } := by
  refine ⟨?_, ?_, toggles_SetConditionalResponse self url last_modified_time etag
    response_header response_body⟩
  · rw [find_SetConditionalResponse, if_pos rfl]
    rfl
  · intro u hu
    rw [find_SetConditionalResponse, if_neg hu]

/-- C11, witness: the entry of http://x/b was extended by `AddToResponse` and
marked as a failure; after `SetConditionalResponse` it is the new entry, with
the success flag true and none of the old headers. -/
theorem C11_set_conditional_response_witness :
    (usedFetcher.bind (fun used => used.response_map_.find "http://x/b")) =
      some { last_modified_time := 500, etag := "old",
             header := { status_code := 404, reason_phrase := "Not Found",
                         headers := [("X-Old", "1"), ("X-More", "2")],
                         caching := some (404, [("X-Old", "1"), ("X-More", "2")]) },
             body := helloBody, success := false } ∧
    (usedFetcher.bind (fun used =>
        (used.SetConditionalResponse "http://x/b" 1000 "" okHeaders bodyBody).response_map_.find
          "http://x/b")) =
      some { last_modified_time := 1000, etag := "", header := okHeaders, body := bodyBody,
             success := true } := by
  refine ⟨by decide, ?_⟩
  cases h : usedFetcher with
  | none =>
    have hsome : usedFetcher.isSome = true := by decide
    rw [h] at hsome
    cases hsome
  | some used =>
    exact (C11_set_conditional_response used "http://x/b" 1000 "" okHeaders bodyBody).1

/-- C12.  `RemoveResponse(u)` on a fetcher without an entry for `u` leaves the
fetcher as it is; on a fetcher with an entry for `u` it removes that entry and
leaves the entry of every other url, and the toggles, as they were; and
applying it twice gives the same fetcher as applying it once. -/
theorem C12_remove_response (self : MockUrlFetcher) (u : String) :
    (self.response_map_.find u = none → self.RemoveResponse u = self) ∧
    (self.RemoveResponse u).response_map_.find u = none ∧
    (∀ v, v ≠ u → (self.RemoveResponse u).response_map_.find v = self.response_map_.find v) ∧
    self.RemoveResponse u =
      { self with response_map_ := (self.RemoveResponse u).response_map_ } ∧
    (self.RemoveResponse u).RemoveResponse u = self.RemoveResponse u := by
  refine ⟨RemoveResponse_absent self u, ?_, ?_, ?_, ?_⟩
  · rw [find_RemoveResponse, if_pos rfl]
  · intro v hv
    rw [find_RemoveResponse, if_neg hv]
  · unfold RemoveResponse
    cases h : self.response_map_.find u <;> rfl
  · apply RemoveResponse_absent
    rw [find_RemoveResponse, if_pos rfl]

/-- C12, witness: removing http://x/a from the first scenario removes "hello"
and a second removal changes nothing. -/
theorem C12_remove_response_witness :
    (helloFetcher.RemoveResponse "http://x/a").response_map_.find "http://x/a" = none ∧
    (helloFetcher.RemoveResponse "http://x/a").RemoveResponse "http://x/a" =
      helloFetcher.RemoveResponse "http://x/a" :=
  ⟨(C12_remove_response helloFetcher "http://x/a").2.1,
   (C12_remove_response helloFetcher "http://x/a").2.2.2.2⟩

/-- C13.  `AddToResponse(url, name, value)` and `SetResponseFailure(url)` stop
at their `CHECK` if and only if the store has no entry for `url`.  When the
entry exists, `AddToResponse` appends the pair `(name, value)` to the headers
of that entry, after the headers it had, keeps its status line, last-modified
time, etag, body and success flag, and leaves every other entry and the
toggles as they were. -/
theorem C13_add_to_response (self : MockUrlFetcher) (url name value : String) :
    (self.AddToResponse url name value = none ↔ self.response_map_.find url = none) ∧
    (self.SetResponseFailure url = none ↔ self.response_map_.find url = none) ∧
    (∀ response, self.response_map_.find url = some response →
      ∃ added changed, self.AddToResponse url name value = some added ∧
        added.response_map_.find url = some changed ∧
        changed.header.headers = response.header.headers ++ [(name, value)] ∧
        changed.header.status_code = response.header.status_code ∧
        changed.header.reason_phrase = response.header.reason_phrase ∧
        changed.last_modified_time = response.last_modified_time ∧
        changed.etag = response.etag ∧
        changed.body = response.body ∧
        changed.success = response.success ∧
        (∀ u, u ≠ url → added.response_map_.find u = self.response_map_.find u) ∧
        added = { self with response_map_ := added.response_map_ }) := by
  refine ⟨?_, ?_, ?_⟩
  · unfold AddToResponse
    cases h : self.response_map_.find url <;> simp
  · unfold SetResponseFailure
    cases h : self.response_map_.find url <;> simp
  · intro response hfind
    refine ⟨_, response.update_header (fun h => (h.Add name value).ComputeCaching),
      by unfold AddToResponse; rw [hfind], ?_, rfl, rfl, rfl, rfl, rfl, rfl, rfl, ?_, rfl⟩
    · simp [ResponseMap.assign]
    · intro u hu
      simp [ResponseMap.assign, hu]

/-- C13, witness: a header added to "hello" of the first scenario. -/
theorem C13_add_to_response_witness :
    ∃ added changed, helloFetcher.AddToResponse "http://x/a" "X-More" "2" = some added ∧
      added.response_map_.find "http://x/a" = some changed ∧
      changed.header.headers = okHeaders.headers ++ [("X-More", "2")] ∧
      changed.body = helloBody ∧ changed.success = true := by
  obtain ⟨added, changed, h1, h2, h3, _, _, _, _, h8, h9, _, _⟩ :=
    (C13_add_to_response helloFetcher "http://x/a" "X-More" "2").2.2
      (HttpResponse.new 0 "" okHeaders helloBody) (by decide)
  exact ⟨added, changed, h1, h2, h3, h8, h9⟩

/-- C14.  With `enabled_` and `verify_host_header_`, a fetch signals a
host-verification failure if and only if the single value of the request's
`Host` header (the empty string when the header is absent or has several
values) differs from the host and port of the url: with exactly one `Host`
value, if and only if that value differs from the host and port; with no
`Host` header or with several, whenever the url has a host.  With
`verify_host_header_` off no host-verification failure is signalled.  The
failures of a fetch that returns are the signalled ones. -/
theorem C14_host_verification (env : Collaborators) (self : MockUrlFetcher) (url : String)
    (request_headers : RequestHeaders) (henabled : self.enabled_ = true) :
    (self.verify_host_header_ = true →
      ((∃ e a, TestFailure.hostMismatch e a ∈
            signalledFailures env self url request_headers) ↔
          env.HostAndPort url ≠ (request_headers.Lookup1 HttpAttributes.kHost).getD "") ∧
      (∀ v, request_headers.valuesOf HttpAttributes.kHost = [v] →
        ((∃ e a, TestFailure.hostMismatch e a ∈
            signalledFailures env self url request_headers) ↔ v ≠ env.HostAndPort url)) ∧
      ((∀ v, request_headers.valuesOf HttpAttributes.kHost ≠ [v]) →
        env.HostAndPort url ≠ "" →
        ∃ e a, TestFailure.hostMismatch e a ∈
          signalledFailures env self url request_headers)) ∧
    (self.verify_host_header_ = false →
      ∀ e a, TestFailure.hostMismatch e a ∉ signalledFailures env self url request_headers) ∧
    (∀ response_headers response_writer r,
      StreamingFetchUrl env self url request_headers response_headers response_writer = some r →
      r.failures = signalledFailures env self url request_headers) := by
  have hmem := hostMismatch_mem_signalled env self url request_headers henabled
  refine ⟨fun hv => ⟨?_, ?_, ?_⟩, ?_, ?_⟩
  · rw [hmem]
    exact ⟨fun h => h.2, fun h => ⟨hv, h⟩⟩
  · intro v hone
    rw [hmem, Lookup1_single _ _ _ hone]
    exact ⟨fun h hvu => h.2 hvu.symm, fun h => ⟨hv, fun hvu => h hvu.symm⟩⟩
  · intro hnot hhost
    rw [hmem, Lookup1_not_single _ _ hnot]
    exact ⟨hv, hhost⟩
  · intro hv e a hma
    have h := hmem.mp ⟨e, a, hma⟩
    rw [hv] at h
    exact absurd h.1 (by decide)
  · intro response_headers response_writer r hr
    exact (fetch_some_frame env self url request_headers response_headers response_writer r
      hr).2

/-- C14, witness: the first scenario with `verify_host_header_`; the url
http://x/a has the host "x".  `Host: y` is a mismatch, `Host: x` is none, and
two `Host` headers are a mismatch. -/
theorem C14_host_verification_witness :
    (∃ e a, TestFailure.hostMismatch e a ∈
        signalledFailures exampleEnv verifyingHelloFetcher "http://x/a" otherHostRequest) ∧
    (¬ ∃ e a, TestFailure.hostMismatch e a ∈
        signalledFailures exampleEnv verifyingHelloFetcher "http://x/a" hostRequest) ∧
    (∃ e a, TestFailure.hostMismatch e a ∈
        signalledFailures exampleEnv verifyingHelloFetcher "http://x/a" twoHostsRequest) :=
  ⟨(((C14_host_verification exampleEnv verifyingHelloFetcher "http://x/a" otherHostRequest
        rfl).1 rfl).2.1 "y" (by decide)).mpr (by decide),
   fun h => absurd rfl ((((C14_host_verification exampleEnv verifyingHelloFetcher "http://x/a"
        hostRequest rfl).1 rfl).2.1 "x" (by decide)).mp h),
   ((C14_host_verification exampleEnv verifyingHelloFetcher "http://x/a" twoHostsRequest
        rfl).1 rfl).2.2 (not_single_of_length _ (by decide)) (by decide)⟩

/-- C15, as amended.  For an enabled fetch of a registered url whose stored
last-modified time is 0 (as for every entry registered through `SetResponse`):
an If-Modified-Since header that carries exactly one value, parsing to a time
`t > 0`, makes the fetch answer 304 without a write, since `t ≥ 0`; an
If-Modified-Since header that is absent, has several values, does not parse or
parses to a time `t ≤ 0` has no effect: the fetch answers exactly as it does
for the request without that header. -/
theorem C15_zero_last_modified (env : Collaborators) (self : MockUrlFetcher) (url : String)
    (request_headers : RequestHeaders) (response_headers : ResponseHeaders)
    (response_writer : Writer) (response : HttpResponse)
    (henabled : self.enabled_ = true)
    (hfind : self.response_map_.find url = some response)
    (hzero : response.last_modified_time = 0) :
    (∀ v t, request_headers.valuesOf HttpAttributes.kIfModifiedSince = [v] →
      env.ConvertStringToTime v = some t → 0 < t →
      ∃ r, StreamingFetchUrl env self url request_headers response_headers response_writer
            = some r ∧
        r.response_headers.status_code = 304 ∧
        r.response_headers = response_headers.SetStatusAndReason HttpStatus.kNotModified ∧
        r.response_writer = response_writer) ∧
    ((¬ ∃ v t, request_headers.valuesOf HttpAttributes.kIfModifiedSince = [v] ∧
          env.ConvertStringToTime v = some t ∧ 0 < t) →
      StreamingFetchUrl env self url request_headers response_headers response_writer =
        StreamingFetchUrl env self url
          (request_headers.without HttpAttributes.kIfModifiedSince) response_headers
          response_writer) := by
  constructor
  · intro v t hone hparse hpos
    exact ⟨_, fetch_since env self url request_headers response_headers response_writer
      response henabled hfind ⟨v, t, hone, hparse, hpos, by rw [hzero]; exact le_of_lt hpos⟩,
      rfl, rfl, rfl⟩
  · intro hnot
    have hvoid : (request_headers.without HttpAttributes.kIfModifiedSince).valuesOf
        HttpAttributes.kIfModifiedSince = [] := by
      rw [valuesOf_without, if_pos rfl]
    have hmatch : (request_headers.without HttpAttributes.kIfModifiedSince).valuesOf
        HttpAttributes.kIfNoneMatch = request_headers.valuesOf HttpAttributes.kIfNoneMatch := by
      rw [valuesOf_without, if_neg (by decide)]
    have hhost : (request_headers.without HttpAttributes.kIfModifiedSince).valuesOf
        HttpAttributes.kHost = request_headers.valuesOf HttpAttributes.kHost := by
      rw [valuesOf_without, if_neg (by decide)]
    rcases fetch_cases env self url request_headers response_headers response_writer with
      ⟨hen, _⟩ | ⟨_, hnone, _⟩ | ⟨found, _, hfound, hrule, h⟩ |
      ⟨found, _, hfound, hns, hne, hfail, h⟩ | ⟨found, _, hfound, hns, hne, hfail, htimer, h⟩ |
      ⟨⟨_, found, hfound, hns, hne, hfail, hu, ht⟩, h⟩
    · rw [henabled] at hen; cases hen
    · rw [hfind] at hnone; cases hnone
    · rw [hfind] at hfound; cases hfound
      have hh : verifyHost env self url
          (request_headers.without HttpAttributes.kIfModifiedSince) =
          verifyHost env self url request_headers := by
        unfold verifyHost RequestHeaders.Lookup1; rw [hhost]
      rcases hrule with ⟨v, t, hone, hparse, hpos, _⟩ | hrule
      · exact absurd ⟨v, t, hone, hparse, hpos⟩ hnot
      · rw [h, fetch_etag env self url _ response_headers response_writer response henabled
          hfind ⟨hrule.1, by rw [hmatch]; exact hrule.2⟩, hh]
    · rw [hfind] at hfound; cases hfound
      have hh : verifyHost env self url
          (request_headers.without HttpAttributes.kIfModifiedSince) =
          verifyHost env self url request_headers := by
        unfold verifyHost RequestHeaders.Lookup1; rw [hhost]
      rw [h, fetch_fail_after_headers env self url _ response_headers response_writer response
        henabled hfind (not_SinceRule_of_absent _ _ _ hvoid)
        (fun x => hne ⟨x.1, by rw [← hmatch]; exact x.2⟩) hfail, hh]
    · rw [hfind] at hfound; cases hfound
      have hh : verifyHost env self url
          (request_headers.without HttpAttributes.kIfModifiedSince) =
          verifyHost env self url request_headers := by
        unfold verifyHost RequestHeaders.Lookup1; rw [hhost]
      rw [h, fetch_deliver env self url _ response_headers response_writer response
        henabled hfind (not_SinceRule_of_absent _ _ _ hvoid)
        (fun x => hne ⟨x.1, by rw [← hmatch]; exact x.2⟩) hfail htimer, hh]
    · rw [hfind] at hfound; cases hfound
      rw [h, fetch_check_fails env self url _ response_headers response_writer response
        henabled hfind (not_SinceRule_of_absent _ _ _ hvoid)
        (fun x => hne ⟨x.1, by rw [← hmatch]; exact x.2⟩) hfail hu ht]

/-- C15, witness: "hello" registered through `SetResponse` and requested with
`If-Modified-Since: 2000` is answered by 304 without a write. -/
theorem C15_zero_last_modified_witness :
    ∃ r, StreamingFetchUrl exampleEnv helloFetcher "http://x/a" sinceRequest blankHeaders
          freshWriter = some r ∧
      r.response_headers.status_code = 304 ∧
      r.response_headers = blankHeaders.SetStatusAndReason HttpStatus.kNotModified ∧
      r.response_writer = freshWriter :=
  (C15_zero_last_modified exampleEnv helloFetcher "http://x/a" sinceRequest blankHeaders
    freshWriter (HttpResponse.new 0 "" okHeaders helloBody) rfl (by decide) rfl).1
    "2000" 2000 (by decide) (by decide) (by decide)

/-- C15, counterexample.  "hello" is registered through `SetResponse`, so its
last-modified time is 0.  The request with `If-Modified-Since: 2000` is
answered by 304 and nothing is written; the request without that header is
answered by 200 and "hello". -/
theorem C15_counterexample :
    (helloFetcher.response_map_.find "http://x/a").map
        (fun response => response.last_modified_time) = some 0 ∧
    (StreamingFetchUrl exampleEnv helloFetcher "http://x/a" sinceRequest blankHeaders
        freshWriter).map (fun r => (r.response_headers.status_code, r.response_writer.written))
      = some (304, []) ∧
    (StreamingFetchUrl exampleEnv helloFetcher "http://x/a"
        (sinceRequest.without HttpAttributes.kIfModifiedSince) blankHeaders
        freshWriter).map (fun r => (r.response_headers.status_code, r.response_writer.written))
      = some (200, [[104, 101, 108, 108, 111]]) := by
  refine ⟨?_, ?_, ?_⟩ <;> decide

/-- C16.  Two stores that hold for `url` entries with the same last-modified
time, etag and success flag, whatever their headers and bodies, answer a
request that triggers a 304 (rule (a) or rule (b) holds) alike: the output
headers are the caller's headers with status and reason set to 304 Not
Modified, nothing of the stored entry in them, the writer is not invoked, and
the returned value and the test failures are the same. -/
theorem C16_not_modified_independent (env : Collaborators) (self : MockUrlFetcher)
    (store other : ResponseMap) (url : String) (request_headers : RequestHeaders)
    (response_headers : ResponseHeaders) (response_writer : Writer)
    (response changed : HttpResponse)
    (henabled : self.enabled_ = true)
    (hstore : store.find url = some response) (hother : other.find url = some changed)
    (htime : changed.last_modified_time = response.last_modified_time)
    (hetag : changed.etag = response.etag) (hsuccess : changed.success = response.success)
    (hrule : SinceRule env request_headers response ∨ EtagRule request_headers response) :
    ∃ r q,
      StreamingFetchUrl env { self with response_map_ := store } url request_headers
          response_headers response_writer = some r ∧
      StreamingFetchUrl env { self with response_map_ := other } url request_headers
          response_headers response_writer = some q ∧
      r.response_headers = response_headers.SetStatusAndReason HttpStatus.kNotModified ∧
      q.response_headers = r.response_headers ∧
      r.response_headers.headers = response_headers.headers ∧
      r.response_headers.caching = response_headers.caching ∧
      r.response_writer = response_writer ∧ q.response_writer = response_writer ∧
      q.ret = r.ret ∧ q.failures = r.failures := by
  rcases hrule with hrule | hrule
  · have hrule2 : SinceRule env request_headers changed := by
      obtain ⟨v, t, h1, h2, h3, h4⟩ := hrule
      exact ⟨v, t, h1, h2, h3, by rw [htime]; exact h4⟩
    exact ⟨_, _,
      fetch_since env { self with response_map_ := store } url request_headers
        response_headers response_writer response henabled hstore hrule,
      fetch_since env { self with response_map_ := other } url request_headers
        response_headers response_writer changed henabled hother hrule2,
      rfl, rfl, rfl, rfl, rfl, rfl, hsuccess, rfl⟩
  · have hrule2 : EtagRule request_headers changed := by
      obtain ⟨h1, h2⟩ := hrule
      exact ⟨by rw [hetag]; exact h1, by rw [hetag]; exact h2⟩
    exact ⟨_, _,
      fetch_etag env { self with response_map_ := store } url request_headers
        response_headers response_writer response henabled hstore hrule,
      fetch_etag env { self with response_map_ := other } url request_headers
        response_headers response_writer changed henabled hother hrule2,
      rfl, rfl, rfl, rfl, rfl, rfl, hsuccess, rfl⟩

/-- C16, witness: two stores with etag "v1" and last-modified time 1000 for
http://x/a, one with "hello" and status 200, one with "body" and status 404,
asked with `If-None-Match: v1`. -/
theorem C16_not_modified_independent_witness :
    ∃ r q,
      StreamingFetchUrl exampleEnv { emptyFetcher with response_map_ := etagFetcher.response_map_ }
          "http://x/a" matchRequest blankHeaders freshWriter = some r ∧
      StreamingFetchUrl exampleEnv
          { emptyFetcher with response_map_ := otherEtagFetcher.response_map_ }
          "http://x/a" matchRequest blankHeaders freshWriter = some q ∧
      r.response_headers = blankHeaders.SetStatusAndReason HttpStatus.kNotModified ∧
      q.response_headers = r.response_headers ∧
      r.response_headers.headers = blankHeaders.headers ∧
      r.response_headers.caching = blankHeaders.caching ∧
      r.response_writer = freshWriter ∧ q.response_writer = freshWriter ∧
      q.ret = r.ret ∧ q.failures = r.failures :=
  C16_not_modified_independent exampleEnv emptyFetcher etagFetcher.response_map_
    otherEtagFetcher.response_map_ "http://x/a" matchRequest blankHeaders freshWriter
    (HttpResponse.new 1000 "v1" okHeaders helloBody)
    (HttpResponse.new 1000 "v1" otherHeaders bodyBody) rfl (by decide) (by decide) rfl rfl rfl
    (Or.inr ⟨by decide, by decide⟩)

/-- C17.  A fetch that returns leaves the fetcher, and so the url-to-response
mapping, exactly as it was; the same fetch repeated on the fetcher it leaves
gives the same result; repeated on the output headers and the writer it
leaves, it returns the same value, leaves the same headers and writes the same
chunks again.  A fetch fails to return only when it stops at
`CHECK(timer_ != NULL)`. -/
theorem C17_store_unchanged (env : Collaborators) (self : MockUrlFetcher) (url : String)
    (request_headers : RequestHeaders) (response_headers : ResponseHeaders)
    (response_writer : Writer) :
    (∀ r, StreamingFetchUrl env self url request_headers response_headers response_writer
          = some r →
      r.fetcher = self ∧
      r.fetcher.response_map_ = self.response_map_ ∧
      StreamingFetchUrl env r.fetcher url request_headers response_headers response_writer
        = some r ∧
      ∃ q chunks,
        StreamingFetchUrl env r.fetcher url request_headers r.response_headers
          r.response_writer = some q ∧
        q.ret = r.ret ∧ q.response_headers = r.response_headers ∧ q.fetcher = self ∧
        r.response_writer.written = response_writer.written ++ chunks ∧
        q.response_writer.written = r.response_writer.written ++ chunks) ∧
    (StreamingFetchUrl env self url request_headers response_headers response_writer = none ↔
      StopsAtCheck env self url request_headers) := by
  refine ⟨fun r hr => ?_, fetch_none_iff env self url request_headers response_headers
    response_writer⟩
  have hself := (fetch_some_frame env self url request_headers response_headers
    response_writer r hr).1
  refine ⟨hself, by rw [hself], by rw [hself]; exact hr, ?_⟩
  rw [hself]
  rcases fetch_cases env self url request_headers response_headers response_writer with
    ⟨hen, h⟩ | ⟨hen, hfind, h⟩ | ⟨response, hen, hfind, hrule, h⟩ |
    ⟨response, hen, hfind, hns, hne, hfail, h⟩ |
    ⟨response, hen, hfind, hns, hne, hfail, htimer, h⟩ | ⟨_, h⟩
  · rw [h] at hr; cases hr
    exact ⟨_, [], fetch_disabled env self url request_headers _ _ hen, rfl, rfl, rfl,
      (List.append_nil _).symm, (List.append_nil _).symm⟩
  · rw [h] at hr; cases hr
    exact ⟨_, [], fetch_unset env self url request_headers _ _ hen hfind, rfl, rfl, rfl,
      (List.append_nil _).symm, (List.append_nil _).symm⟩
  · rw [h] at hr; cases hr
    rcases hrule with hrule | hrule
    · exact ⟨_, [], fetch_since env self url request_headers _ _ response hen hfind hrule,
        rfl, rfl, rfl, (List.append_nil _).symm, (List.append_nil _).symm⟩
    · exact ⟨_, [], fetch_etag env self url request_headers _ _ response hen hfind hrule,
        rfl, rfl, rfl, (List.append_nil _).symm, (List.append_nil _).symm⟩
  · rw [h] at hr; cases hr
    exact ⟨_, [], fetch_fail_after_headers env self url request_headers _ _ response hen hfind
      hns hne hfail, rfl, rfl, rfl, (List.append_nil _).symm, (List.append_nil _).symm⟩
  · rw [h] at hr; cases hr
    exact ⟨_, bodyChunks self response,
      fetch_deliver env self url request_headers _ _ response hen hfind hns hne hfail htimer,
      rfl, rfl, rfl, writeBody_written_bodyChunks self response response_writer,
      writeBody_written_bodyChunks self response _⟩
  · rw [h] at hr; cases hr

/-- C17, witness: the first scenario, fetched and fetched again. -/
theorem C17_store_unchanged_witness :
    ∃ r, StreamingFetchUrl exampleEnv helloFetcher "http://x/a" noHeaders blankHeaders
          freshWriter = some r ∧
      r.fetcher = helloFetcher ∧
      StreamingFetchUrl exampleEnv r.fetcher "http://x/a" noHeaders blankHeaders freshWriter
        = some r := by
  have hr := fetch_deliver exampleEnv helloFetcher "http://x/a" noHeaders blankHeaders
    freshWriter (HttpResponse.new 0 "" okHeaders helloBody) rfl (by decide)
    (not_SinceRule_of_absent _ _ _ (by decide)) (not_EtagRule_of_absent _ _ (by decide)) rfl
    (by decide)
  have h := (C17_store_unchanged exampleEnv helloFetcher "http://x/a" noHeaders blankHeaders
    freshWriter).1 _ hr
  exact ⟨_, hr, h.1, h.2.2.1⟩

/-- C18, as amended.  With `enabled_`, for a registered url whose fetch takes
the normal delivery (neither rule (a) nor rule (b) holds) with
`fail_after_headers_` off and a timer whenever `update_date_headers_` is on,
for every setting of `split_writes_` and `omit_empty_writes_` and every body:
the fetch returns, the writer is invoked at most twice, the chunks written add
up, in the order of the invocations, to the stored body, and with
`omit_empty_writes_` on no chunk is empty. -/
theorem C18_written_chunks (env : Collaborators) (self : MockUrlFetcher) (url : String)
    (request_headers : RequestHeaders) (response_headers : ResponseHeaders)
    (response_writer : Writer) (response : HttpResponse)
    (henabled : self.enabled_ = true)
    (hfind : self.response_map_.find url = some response)
    (hsince : ¬ SinceRule env request_headers response)
    (hetag : ¬ EtagRule request_headers response)
    (hfail : self.fail_after_headers_ = false)
    (htimer : self.update_date_headers_ = true → self.timer_ ≠ none) :
    ∃ r chunks,
      StreamingFetchUrl env self url request_headers response_headers response_writer
          = some r ∧
      r.response_writer.written = response_writer.written ++ chunks ∧
      chunks.length ≤ 2 ∧
      chunks.flatten = response.body.val ∧
      (self.omit_empty_writes_ = true → ∀ c ∈ chunks, c ≠ []) := by
  obtain ⟨chunks, hw, hflat, hlen, hne⟩ := writeBody_chunks self response response_writer
  exact ⟨_, chunks, fetch_deliver env self url request_headers response_headers
    response_writer response henabled hfind hsince hetag hfail htimer, hw, hlen, hflat, hne⟩

/-- C18, witness: a body of one byte with `split_writes_` and
`omit_empty_writes_`. -/
theorem C18_written_chunks_witness :
    ∃ r chunks,
      StreamingFetchUrl exampleEnv splitOneByteFetcher "http://x/a" noHeaders blankHeaders
          freshWriter = some r ∧
      r.response_writer.written = freshWriter.written ++ chunks ∧
      chunks.length ≤ 2 ∧
      chunks.flatten = oneByteBody.val ∧
      (splitOneByteFetcher.omit_empty_writes_ = true → ∀ c ∈ chunks, c ≠ []) :=
  C18_written_chunks exampleEnv splitOneByteFetcher "http://x/a" noHeaders blankHeaders
    freshWriter (HttpResponse.new 0 "" okHeaders oneByteBody) rfl (by decide)
    (not_SinceRule_of_absent _ _ _ (by decide)) (not_EtagRule_of_absent _ _ (by decide)) rfl
    (by decide)

/-- C18, counterexample.  "hello" is registered, no rule applies and
`fail_after_headers_` is off; with `update_date_headers_` on and no timer the
fetch stops at `CHECK(timer_ != NULL)` before the body is delivered: nothing
is written. -/
theorem C18_counterexample :
    datedNoTimerFetcher.fail_after_headers_ = false ∧
    (datedNoTimerFetcher.response_map_.find "http://x/a").map (fun response => response.body) =
      some helloBody ∧
    StreamingFetchUrl exampleEnv datedNoTimerFetcher "http://x/a" noHeaders blankHeaders
        freshWriter = none :=
  ⟨rfl, by decide,
   fetch_check_fails exampleEnv datedNoTimerFetcher "http://x/a" noHeaders blankHeaders
     freshWriter (HttpResponse.new 0 "" okHeaders helloBody) rfl (by decide)
     (not_SinceRule_of_absent _ _ _ (by decide)) (not_EtagRule_of_absent _ _ (by decide)) rfl
     rfl rfl⟩

/-- C19, as amended.  For an enabled fetch of a registered url: when rule (a)
or rule (b) holds the fetch sets the output status to 304 and writes nothing;
rule (a) fails exactly when the If-Modified-Since header has no single value,
does not parse, or parses to a time that is not positive or is older than the
stored last-modified time, and then rule (b) alone decides; when neither rule
holds the stored headers are copied, and then, with `fail_after_headers_` the
fetch stops without a write, and without it (a timer being there whenever
`update_date_headers_` is on) the body is delivered.  The output status of a
fetch that returns is therefore 304 if and only if rule (a) or rule (b) holds,
provided the stored status is not itself 304. -/
theorem C19_not_modified_decision (env : Collaborators) (self : MockUrlFetcher) (url : String)
    (request_headers : RequestHeaders) (response_headers : ResponseHeaders)
    (response_writer : Writer) (response : HttpResponse)
    (henabled : self.enabled_ = true)
    (hfind : self.response_map_.find url = some response) :
    ((SinceRule env request_headers response ∨ EtagRule request_headers response) →
      ∃ r, StreamingFetchUrl env self url request_headers response_headers response_writer
            = some r ∧
        r.response_headers.status_code = 304 ∧
        r.response_headers = response_headers.SetStatusAndReason HttpStatus.kNotModified ∧
        r.response_writer = response_writer) ∧
    (¬ SinceRule env request_headers response ↔
      ((∀ v, request_headers.valuesOf HttpAttributes.kIfModifiedSince ≠ [v]) ∨
        ∃ v, request_headers.valuesOf HttpAttributes.kIfModifiedSince = [v] ∧
          (env.ConvertStringToTime v = none ∨
            ∃ t, env.ConvertStringToTime v = some t ∧
              (t ≤ 0 ∨ t < response.last_modified_time)))) ∧
    (¬ SinceRule env request_headers response → ¬ EtagRule request_headers response →
      (self.fail_after_headers_ = true →
        ∃ r, StreamingFetchUrl env self url request_headers response_headers response_writer
              = some r ∧
          r.response_headers = response.header ∧
          r.response_writer = response_writer) ∧
      (self.fail_after_headers_ = false →
        (self.update_date_headers_ = true → self.timer_ ≠ none) →
        ∃ r chunks,
          StreamingFetchUrl env self url request_headers response_headers response_writer
              = some r ∧
          r.response_headers = deliveredHeaders env self response ∧
          r.response_headers.status_code = response.header.status_code ∧
          r.response_writer.written = response_writer.written ++ chunks ∧
          chunks.flatten = response.body.val)) ∧
    (response.header.status_code ≠ 304 →
      ∀ r, StreamingFetchUrl env self url request_headers response_headers response_writer
            = some r →
        (r.response_headers.status_code = 304 ↔
          (SinceRule env request_headers response ∨ EtagRule request_headers response))) := by
  have hstatus : (deliveredHeaders env self response).status_code =
      response.header.status_code := by
    unfold deliveredHeaders
    split_ifs <;> rfl
  refine ⟨?_, not_SinceRule_iff env request_headers response, ?_, ?_⟩
  · rintro (hrule | hrule)
    · exact ⟨_, fetch_since env self url request_headers response_headers response_writer
        response henabled hfind hrule, rfl, rfl, rfl⟩
    · exact ⟨_, fetch_etag env self url request_headers response_headers response_writer
        response henabled hfind hrule, rfl, rfl, rfl⟩
  · intro hns hne
    refine ⟨fun hfail => ?_, fun hfail htimer => ?_⟩
    · exact ⟨_, fetch_fail_after_headers env self url request_headers response_headers
        response_writer response henabled hfind hns hne hfail, rfl, rfl⟩
    · obtain ⟨chunks, hw, hflat, _, _⟩ := writeBody_chunks self response response_writer
      exact ⟨_, chunks, fetch_deliver env self url request_headers response_headers
        response_writer response henabled hfind hns hne hfail htimer, rfl, hstatus, hw, hflat⟩
  · intro hstored r hr
    rcases fetch_cases env self url request_headers response_headers response_writer with
      ⟨hen, _⟩ | ⟨_, hnone, _⟩ | ⟨found, _, hfound, hrule, h⟩ |
      ⟨found, _, hfound, hns, hne, _, h⟩ | ⟨found, _, hfound, hns, hne, _, _, h⟩ | ⟨_, h⟩
    · rw [henabled] at hen; cases hen
    · rw [hfind] at hnone; cases hnone
    · rw [hfind] at hfound; cases hfound
      rw [h] at hr; cases hr
      exact ⟨fun _ => hrule, fun _ => rfl⟩
    · rw [hfind] at hfound; cases hfound
      rw [h] at hr; cases hr
      exact ⟨fun h304 => absurd h304 hstored, fun hrule => (hrule.elim hns hne).elim⟩
    · rw [hfind] at hfound; cases hfound
      rw [h] at hr; cases hr
      exact ⟨fun h304 => absurd (hstatus.symm.trans h304) hstored,
        fun hrule => (hrule.elim hns hne).elim⟩
    · rw [h] at hr; cases hr

/-- C19, witness: etag "v1" and last-modified time 1000 stored; the request
with `If-None-Match: v1` alone is answered by 304. -/
theorem C19_not_modified_decision_witness :
    ∃ r, StreamingFetchUrl exampleEnv etagFetcher "http://x/a" matchRequest blankHeaders
          freshWriter = some r ∧
      r.response_headers.status_code = 304 ∧
      r.response_headers = blankHeaders.SetStatusAndReason HttpStatus.kNotModified ∧
      r.response_writer = freshWriter :=
  (C19_not_modified_decision exampleEnv etagFetcher "http://x/a" matchRequest blankHeaders
    freshWriter (HttpResponse.new 1000 "v1" okHeaders helloBody) rfl (by decide)).1
    (Or.inr ⟨by decide, by decide⟩)

/-- C19, counterexample.  A response of status 304 is registered and requested
without conditional headers: neither rule holds, yet the output status is 304,
copied from the stored headers.  With `fail_after_headers_` and no conditional
header the stored headers are copied but "hello" is not delivered, and with
`update_date_headers_` on and no timer the fetch stops at
`CHECK(timer_ != NULL)`. -/
theorem C19_counterexample :
    (noHeaders.valuesOf HttpAttributes.kIfModifiedSince = [] ∧
      noHeaders.valuesOf HttpAttributes.kIfNoneMatch = []) ∧
    (StreamingFetchUrl exampleEnv storedNotModifiedFetcher "http://x/a" noHeaders blankHeaders
        freshWriter).map (fun r => (r.response_headers.status_code, r.response_writer.written))
      = some (304, [[104, 101, 108, 108, 111]]) ∧
    (StreamingFetchUrl exampleEnv failAfterFetcher "http://x/a" noHeaders blankHeaders
        freshWriter).map (fun r => (r.response_headers.status_code, r.response_writer.written))
      = some (200, []) ∧
    (StreamingFetchUrl exampleEnv datedNoTimerFetcher "http://x/a" noHeaders blankHeaders
        freshWriter).isNone = true := by
  refine ⟨⟨?_, ?_⟩, ?_, ?_, ?_⟩ <;> decide

/-- C20.  Two runs of a fetch that differ only in what the writer answers to
`Write` (the two writers have received the same chunks before) either both
stop at `CHECK(timer_ != NULL)` or both return, with the same returned value,
the same output headers, the same chunks handed to the writer and the same
test failures. -/
theorem C20_writer_answers_ignored (env : Collaborators) (self : MockUrlFetcher) (url : String)
    (request_headers : RequestHeaders) (response_headers : ResponseHeaders)
    (response_writer other_writer : Writer)
    (hwritten : response_writer.written = other_writer.written) :
    (StreamingFetchUrl env self url request_headers response_headers response_writer).map
        (fun r => (r.ret, r.response_headers, r.response_writer.written, r.failures)) =
      (StreamingFetchUrl env self url request_headers response_headers other_writer).map
        (fun r => (r.ret, r.response_headers, r.response_writer.written, r.failures)) := by
  rcases fetch_cases env self url request_headers response_headers response_writer with
    ⟨hen, h⟩ | ⟨hen, hfind, h⟩ | ⟨response, hen, hfind, hrule, h⟩ |
    ⟨response, hen, hfind, hns, hne, hfail, h⟩ |
    ⟨response, hen, hfind, hns, hne, hfail, htimer, h⟩ |
    ⟨⟨hen, response, hfind, hns, hne, hfail, hu, ht⟩, h⟩
  · rw [h, fetch_disabled env self url request_headers response_headers other_writer hen]
    simp only [Option.map_some', hwritten]
  · rw [h, fetch_unset env self url request_headers response_headers other_writer hen hfind]
    simp only [Option.map_some', hwritten]
  · rcases hrule with hrule | hrule
    · rw [h, fetch_since env self url request_headers response_headers other_writer response
        hen hfind hrule]
      simp only [Option.map_some', hwritten]
    · rw [h, fetch_etag env self url request_headers response_headers other_writer response
        hen hfind hrule]
      simp only [Option.map_some', hwritten]
  · rw [h, fetch_fail_after_headers env self url request_headers response_headers other_writer
      response hen hfind hns hne hfail]
    simp only [Option.map_some', hwritten]
  · rw [h, fetch_deliver env self url request_headers response_headers other_writer response
      hen hfind hns hne hfail htimer]
    simp only [Option.map_some',
      writeBody_written_congr self response response_writer other_writer hwritten]
  · rw [h, fetch_check_fails env self url request_headers response_headers other_writer
      response hen hfind hns hne hfail hu ht]

/-- C20, witness: "hello" fetched in split mode with a writer that answers
false to every write: both halves are written and the fetch returns true, as
with a writer that answers true. -/
theorem C20_writer_answers_ignored_witness :
    (StreamingFetchUrl exampleEnv splitFetcher "http://x/a" noHeaders blankHeaders
        failingWriter).map
        (fun r => (r.ret, r.response_headers, r.response_writer.written, r.failures)) =
      some (true, okHeaders.ComputeCaching, [[104, 101], [108, 108, 111]], []) :=
  (C20_writer_answers_ignored exampleEnv splitFetcher "http://x/a" noHeaders blankHeaders
    failingWriter freshWriter rfl).trans (by decide)

end net_instaweb
